import Mathlib

/-!
# USRP2 host streaming I/O: a shallow embedding and its properties

The definitions below follow `host/lib/usrp/usrp2/io_impl.cpp` and
`host/lib/usrp/usrp2/mboard_impl.cpp`.  Stateful C++ code is written as
explicit state passing; exceptions are values of `Except`; `size_t`
arithmetic is arithmetic on `Nat` reduced modulo `2 ^ 64`; `double` values
(timeouts, rates, option values) are idealised as rationals.

Parts of the repository that the two files call but that live elsewhere
(the VRT header decoder, the register interface, constants of the register
map) are taken as parameters, or modelled from the specification where a
doc comment says so.
-/

namespace UHD

/-! ## Machine integers -/

/-- The modulus of `size_t` arithmetic (an LP64 host). -/
def size_t_mod : Nat := 2 ^ 64

/-- Wrapping `size_t` subtraction `a - b`. -/
def size_t_sub (a b : Nat) : Nat :=
  (a % size_t_mod + (size_t_mod - b % size_t_mod)) % size_t_mod

/-- Wrapping `size_t` addition `a + b`. -/
def size_t_add (a b : Nat) : Nat := (a + b) % size_t_mod

/-- Wrapping `size_t` multiplication `a * b`. -/
def size_t_mul (a b : Nat) : Nat := (a * b) % size_t_mod

/-! ## Data model -/

/-- Modelled from the spec: the packet type tag of the decoded descriptor,
declared in the VRT header of the library, which is not among the sources
(spec section 3: one of DATA, IF_CONTEXT, EXT_CONTEXT). -/
inductive packet_type_t where
  | PACKET_TYPE_DATA
  | PACKET_TYPE_IF_CONTEXT
  | PACKET_TYPE_EXT_CONTEXT
  deriving DecidableEq, Repr

/-- Modelled from the spec: the decoded interface-packet descriptor
`vrt::if_packet_info_t` (spec section 3), with the field names the source
uses (`sid` is the stream id). -/
structure if_packet_info_t where
  packet_type : packet_type_t
  num_payload_words32 : Nat
  num_header_words32 : Nat
  num_packet_words32 : Nat
  packet_count : Nat
  sob : Bool
  eob : Bool
  sid : Nat
  has_tsi : Bool
  tsi : Nat
  has_tsf : Bool
  tsf : Nat
  deriving DecidableEq, Repr

/-- The time spec built by `time_spec_t(time_t(tsi), size_t(tsf), rate)`:
full seconds, tick count and tick rate.  `time_t` and `size_t` are 64 bits
wide, so the conversions of the 32-bit `tsi` and the 64-bit `tsf` keep the
value. -/
structure time_spec_t where
  full_secs : Int
  tick_count : Nat
  tick_rate : ℚ
  deriving DecidableEq

/-- The asynchronous status message `async_metadata_t`, with the fields that
`recv_pirate_loop` fills in. -/
structure async_metadata_t where
  channel : Nat
  has_time_spec : Bool
  time_spec : time_spec_t
  event_code : Nat
  deriving DecidableEq

/-- A receive frame handed out by a transport: an identity and its bytes. -/
structure managed_recv_buffer where
  id : Nat
  data : List Nat
  deriving DecidableEq, Repr

/-- The byte size `buff->size()` of a receive frame. -/
def managed_recv_buffer.size (b : managed_recv_buffer) : Nat := b.data.length

/-- What the scavenger writes to `std::cerr`: the two one-letter indicators
and the error line of the catch block, which carries `e.what()`. -/
inductive cerr_event where
  | U
  | O
  | error (what : String)
  deriving DecidableEq, Repr

/-! ## Bounded buffer and alignment buffer -/

/-- Modelled from the spec: the bounded FIFO `bounded_buffer<T>` behind the
async message queue, whose header is not among the sources.  Spec sections
4.3 and 5: pushes use a drop-oldest-on-full policy; the consumer pops the
oldest element.  `elems` is kept oldest first. -/
structure bounded_buffer (α : Type) where
  capacity : Nat
  elems : List α

/-- Modelled from the spec: `bounded_buffer<T>::make(capacity)`, an empty
buffer of the given depth. -/
def bounded_buffer.make {α : Type} (capacity : Nat) : bounded_buffer α :=
  { capacity := capacity, elems := [] }

/-- Modelled from the spec: `push_with_pop_on_full`; when the buffer is full
the oldest element is dropped, then the new element is enqueued. -/
def bounded_buffer.push_with_pop_on_full {α : Type} (b : bounded_buffer α) (x : α) :
    bounded_buffer α :=
  if b.capacity ≤ b.elems.length then
    { b with elems := b.elems.tail ++ [x] }
  else
    { b with elems := b.elems ++ [x] }

/-- Modelled from the spec: `pop_with_timed_wait`; the oldest element is
taken out, and on an empty buffer with no producer running the wait times
out and nothing is returned. -/
def bounded_buffer.pop_with_timed_wait {α : Type} (b : bounded_buffer α) (_timeout : ℚ) :
    Option α × bounded_buffer α :=
  match b.elems with
  | [] => (none, b)
  | x :: xs => (some x, { b with elems := xs })

/-- Enqueue on a bounded list (oldest first), dropping the oldest when full. -/
def fifo_push {β : Type} (capacity : Nat) (x : β) (l : List β) : List β :=
  if capacity ≤ l.length then l.tail ++ [x] else l ++ [x]

/-- Apply `f` to the element at position `i` of a list; other positions and
out-of-range indices leave the list as it is. -/
def modify_at {β : Type} (f : β → β) : Nat → List β → List β
  | _, [] => []
  | 0, x :: xs => f x :: xs
  | i + 1, x :: xs => x :: modify_at f i xs

/-- Modelled from the spec: the alignment buffer (spec sections 3 and 4.2),
whose header is not among the sources: width `W` streams, each a bounded
FIFO of depth `D` holding `(frame, time, stream_index)`, oldest first. -/
structure alignment_buffer (α τ : Type) where
  capacity : Nat
  width : Nat
  streams : List (List (α × τ × Nat))

/-- Modelled from the spec: `alignment_buffer::make(capacity, width)`. -/
def alignment_buffer.make {α τ : Type} (capacity width : Nat) : alignment_buffer α τ :=
  { capacity := capacity, width := width, streams := List.replicate width [] }

/-- Modelled from the spec: `push(frame, time, stream_index)` enqueues on the
stream `stream_index`; a full stream drops its oldest element. -/
def alignment_buffer.push_with_pop_on_full {α τ : Type} (ab : alignment_buffer α τ)
    (buff : α) (time : τ) (index : Nat) : alignment_buffer α τ :=
  { ab with streams := modify_at (fifo_push ab.capacity (buff, time, index)) index ab.streams }

/-! ## The io implementation and the receive scavenger -/

/-- The state `usrp2_impl::io_impl` holds: the raiding flag, the alignment
buffer (the booty) and the async message FIFO.  The packet handler receive
state is kept by its width only. -/
structure io_impl where
  packet_handler_recv_state : Nat
  recv_pirate_crew_raiding : Bool
  recv_pirate_booty : alignment_buffer managed_recv_buffer time_spec_t
  async_msg_fifo : bounded_buffer async_metadata_t

/-- The constructor `io_impl(num_frames, width)`: the alignment buffer is
made with `num_frames-3` (a `size_t` subtraction) and `width`, the async
FIFO 100 messages deep.  The raiding flag is set by the loop itself. -/
def io_impl.ctor (num_frames width : Nat) : io_impl :=
  { packet_handler_recv_state := width
    recv_pirate_crew_raiding := false
    recv_pirate_booty := alignment_buffer.make (size_t_sub num_frames 3) width
    async_msg_fifo := bounded_buffer.make 100 }

/-- The collaborators of `recv_pirate_loop` that live outside the two source
files: the header decoder `vrt::if_hdr_unpack_be` (it throws on a bad
header), `vrt_packet_handler::get_context_code`, the two event code
constants, the message of a failed `UHD_ASSERT_THROW`, and the master clock
rate the motherboard reports. -/
structure pirate_env where
  if_hdr_unpack_be : managed_recv_buffer → Nat → Except String if_packet_info_t
  get_context_code : managed_recv_buffer → if_packet_info_t → Nat
  EVENT_CODE_UNDERFLOW : Nat
  EVENT_CODE_UNDERFLOW_IN_PACKET : Nat
  assert_what : String
  master_clock_freq : ℚ

/-- The file-level constant `underflow_flags`. -/
def underflow_flags (env : pirate_env) : Nat :=
  env.EVENT_CODE_UNDERFLOW ||| env.EVENT_CODE_UNDERFLOW_IN_PACKET

/-- The state one scavenger works on: its local `next_packet_seq`, the shared
`io_impl`, and the text written to `std::cerr` so far. -/
structure pirate_state where
  next_packet_seq : Nat
  io : io_impl
  cerr : List cerr_event

/-- The async metadata the scavenger fills in for a TX async report. -/
def fill_async_metadata (env : pirate_env) (index : Nat) (buff : managed_recv_buffer)
    (info : if_packet_info_t) : async_metadata_t :=
  { channel := index
    has_time_spec := info.has_tsi && info.has_tsf
    time_spec := { full_secs := (info.tsi : Int), tick_count := info.tsf,
                   tick_rate := env.master_clock_freq }
    event_code := env.get_context_code buff info }

/-- The body of the `try` block of one loop iteration, for a non-null frame.
It returns the state reached and, when an exception left the block, its
`what()` text. -/
def recv_pirate_try (env : pirate_env) (index : Nat) (buff : managed_recv_buffer)
    (s : pirate_state) : pirate_state × Option String :=
  match env.if_hdr_unpack_be buff (buff.size / 4) with
  | .error what => (s, some what)
  | .ok info =>
    if info.sid = 1 ∧ info.packet_type ≠ packet_type_t.PACKET_TYPE_DATA then
      let metadata := fill_async_metadata env index buff info
      let s1 : pirate_state :=
        if metadata.event_code &&& underflow_flags env ≠ 0 then
          { s with cerr := s.cerr ++ [cerr_event.U] }
        else s
      ({ s1 with io := { s1.io with
            async_msg_fifo := s1.io.async_msg_fifo.push_with_pop_on_full metadata } }, none)
    else
      let s1 : pirate_state :=
        if info.packet_count ≠ s.next_packet_seq then
          { s with cerr := s.cerr ++ [cerr_event.O] }
        else s
      let s2 : pirate_state :=
        { s1 with next_packet_seq := size_t_add info.packet_count 1 % 16 }
      if info.has_tsi ∧ info.has_tsf then
        let time : time_spec_t :=
          { full_secs := (info.tsi : Int), tick_count := info.tsf,
            tick_rate := env.master_clock_freq }
        ({ s2 with io := { s2.io with
              recv_pirate_booty := s2.io.recv_pirate_booty.push_with_pop_on_full buff time index } },
         none)
      else (s2, some env.assert_what)

/-- One iteration of the `while` loop of `recv_pirate_loop`, given what
`get_recv_buff` returned: a null buffer is skipped; an exception leaving the
`try` block is caught and logged, and the iteration ends normally. -/
def recv_pirate_iteration (env : pirate_env) (index : Nat)
    (buff : Option managed_recv_buffer) (s : pirate_state) : pirate_state :=
  match buff with
  | none => s
  | some b =>
    match recv_pirate_try env index b s with
    | (s1, none) => s1
    | (s1, some what) => { s1 with cerr := s1.cerr ++ [cerr_event.error what] }

/-- What a scavenger meets at the head of an iteration: the raiding flag was
cleared by the destructor (`shutdown`), or the flag is set and the transport
returns a frame or a null buffer. -/
inductive loop_event where
  | shutdown
  | recv (buff : Option managed_recv_buffer)
  deriving DecidableEq

/-- The `while(recv_pirate_crew_raiding)` loop over the events a worker
meets; it returns at `shutdown` (or when the events run out). -/
def recv_pirate_while (env : pirate_env) (index : Nat) :
    List loop_event → pirate_state → pirate_state
  | [], s => s
  | loop_event.shutdown :: _, s => s
  | loop_event.recv buff :: rest, s =>
    recv_pirate_while env index rest (recv_pirate_iteration env index buff s)

/-- The function `recv_pirate_loop`: the raiding flag is set, the local
expected sequence number starts at 0, then the loop runs. -/
def recv_pirate_loop (env : pirate_env) (index : Nat) (events : List loop_event)
    (io : io_impl) (cerr : List cerr_event) : pirate_state :=
  recv_pirate_while env index events
    { next_packet_seq := 0
      io := { io with recv_pirate_crew_raiding := true }
      cerr := cerr }

/-- The function `usrp2_impl::recv_async_msg`: pop the oldest async message
within the timeout; `none` stands for the `false` return. -/
def recv_async_msg (io : io_impl) (timeout : ℚ) : Option async_metadata_t × io_impl :=
  let r := io.async_msg_fifo.pop_with_timed_wait timeout
  (r.1, { io with async_msg_fifo := r.2 })

/-! ## Send frames and samples per packet -/

/-- A send frame handle handed out by a transport. -/
structure managed_send_buffer where
  id : Nat
  deriving DecidableEq, Repr

/-- A data transport as the io code uses it: `get_send_buff(timeout)` yields a
frame or null (`none`), and the transport reports its frame sizes and the
size of its receive pool. -/
structure udp_zero_copy where
  get_send_buff : ℚ → Option managed_send_buffer
  send_frame_size : Nat
  recv_frame_size : Nat
  num_recv_frames : Nat

/-- The result of the `for` loop of `get_send_buffs`: the buffer slots, the
flag `good`, and the requests made to the transports, as pairs of transport
index and timeout in call order. -/
structure send_buffs_result where
  buffs : List (Option managed_send_buffer)
  good : Bool
  requests : List (Nat × ℚ)

/-- The `for` loop of `get_send_buffs` from index `i`, with `n` iterations
left: `buffs[i] = trans[i]->get_send_buff(timeout)` and
`good = good and (buffs[i].get() != NULL)`. -/
def get_send_buffs_loop (trans : List udp_zero_copy) (timeout : ℚ) :
    Nat → Nat → send_buffs_result → send_buffs_result
  | 0, _, r => r
  | n + 1, i, r =>
    match trans[i]? with
    | none => r
    | some t =>
      let b := t.get_send_buff timeout
      get_send_buffs_loop trans timeout n (i + 1)
        { buffs := r.buffs.set i b
          good := r.good && b.isSome
          requests := r.requests ++ [(i, timeout)] }

/-- The static function `get_send_buffs`: the size assertion throws when the
two vectors differ in size; otherwise the loop runs over all slots. -/
def get_send_buffs (assert_what : String) (trans : List udp_zero_copy)
    (buffs : List (Option managed_send_buffer)) (timeout : ℚ) :
    Except String send_buffs_result :=
  if trans.length = buffs.length then
    .ok (get_send_buffs_loop trans timeout buffs.length 0
      { buffs := buffs, good := true, requests := [] })
  else .error assert_what

/-- The constants of the VRT header that the samples-per-packet functions
use and that are declared outside the two source files:
`vrt::max_if_hdr_words32` and the byte sizes of the descriptor fields `tlr`
and `cid`. -/
structure vrt_consts where
  max_if_hdr_words32 : Nat
  sizeof_tlr : Nat
  sizeof_cid : Nat

/-- The over-the-wire type, by the value of `get_sample_size()`. -/
structure otw_type_t where
  sample_size : Nat

/-- The fields of `usrp2_impl` that the samples-per-packet functions read. -/
structure usrp2_impl where
  _data_transports : List udp_zero_copy
  _rx_otw_type : otw_type_t
  _tx_otw_type : otw_type_t

/-- The static `hdr_size` of `get_max_send_samps_per_packet`:
`0 + max_if_hdr_words32*sizeof(uint32_t) - sizeof(cid)`. -/
def send_hdr_size (c : vrt_consts) : Nat :=
  size_t_sub (size_t_add 0 (size_t_mul c.max_if_hdr_words32 4)) c.sizeof_cid

/-- The static `hdr_size` of `get_max_recv_samps_per_packet`:
`0 + max_if_hdr_words32*sizeof(uint32_t) + sizeof(tlr) - sizeof(cid)`. -/
def recv_hdr_size (c : vrt_consts) : Nat :=
  size_t_sub (size_t_add (size_t_add 0 (size_t_mul c.max_if_hdr_words32 4)) c.sizeof_tlr)
    c.sizeof_cid

/-- The function `usrp2_impl::get_max_send_samps_per_packet`.  `none` stands
for undefined behaviour: `front()` of an empty vector or division by zero.
This is the value `usrp2_impl::send` passes to the packet handler as its
fragment limit. -/
def get_max_send_samps_per_packet (c : vrt_consts) (dev : usrp2_impl) : Option Nat :=
  match dev._data_transports.head? with
  | none => none
  | some t =>
    let bpp := size_t_sub t.send_frame_size (send_hdr_size c)
    if dev._tx_otw_type.sample_size = 0 then none
    else some (bpp / dev._tx_otw_type.sample_size)

/-- The function `usrp2_impl::get_max_recv_samps_per_packet`.  `none` stands
for undefined behaviour: `front()` of an empty vector or division by zero. -/
def get_max_recv_samps_per_packet (c : vrt_consts) (dev : usrp2_impl) : Option Nat :=
  match dev._data_transports.head? with
  | none => none
  | some t =>
    let bpp := size_t_sub t.recv_frame_size (recv_hdr_size c)
    if dev._rx_otw_type.sample_size = 0 then none
    else some (bpp / dev._rx_otw_type.sample_size)

/-- The formula of spec section 4.4 read over the integers:
`floor((frame_size - (MAX_HDR_WORDS*4 + TLR_SIZE - CID_SIZE)) / otw_sample_size)`. -/
def spec_max_samps_per_packet (c : vrt_consts) (frame_size otw_sample_size : Nat) : Int :=
  Int.fdiv ((frame_size : Int)
      - ((c.max_if_hdr_words32 : Int) * 4 + (c.sizeof_tlr : Int) - (c.sizeof_cid : Int)))
    (otw_sample_size : Int)

/-- The send-side counterpart of the formula, without the trailer term:
`floor((frame_size - (MAX_HDR_WORDS*4 - CID_SIZE)) / otw_sample_size)`. -/
def send_max_samps_formula (c : vrt_consts) (frame_size otw_sample_size : Nat) : Int :=
  Int.fdiv ((frame_size : Int)
      - ((c.max_if_hdr_words32 : Int) * 4 - (c.sizeof_cid : Int)))
    (otw_sample_size : Int)

/-- The header constants of the library: seven header words, a 32-bit
trailer and a 64-bit class id. -/
def uhd_vrt_consts : vrt_consts :=
  { max_if_hdr_words32 := 7, sizeof_tlr := 4, sizeof_cid := 8 }

/-- A transport that hands out no send frame, with the given frame sizes. -/
def plain_transport (send_frame_size recv_frame_size : Nat) : udp_zero_copy :=
  { get_send_buff := fun _ => none
    send_frame_size := send_frame_size
    recv_frame_size := recv_frame_size
    num_recv_frames := 32 }

/-- A device with one data transport of the given frame size in both
directions and 4-byte samples over the wire. -/
def plain_device (frame_size : Nat) : usrp2_impl :=
  { _data_transports := [plain_transport frame_size frame_size]
    _rx_otw_type := { sample_size := 4 }
    _tx_otw_type := { sample_size := 4 } }

/-! ## The motherboard: register interface, bring-up steps, teardown -/

/-- The exceptions of the library that the motherboard code throws or lets
through, each with its `what()` text. -/
inductive uhd_exception where
  | value_error (what : String)
  | runtime_error (what : String)
  | key_error (what : String)
  | assertion_error (what : String)
  | out_of_range (what : String)
  deriving DecidableEq, Repr

/-- The device address `device_addr_t`: a dictionary from option names to
string values. -/
abbrev device_addr_t := List (String × String)

/-- The method `has_key` of the dictionary. -/
def device_addr_t.has_key (d : device_addr_t) (key : String) : Bool :=
  d.any (fun kv => kv.1 == key)

/-- The value stored under a key, when there is one. -/
def device_addr_t.lookup (d : device_addr_t) (key : String) : Option String :=
  (d.find? (fun kv => kv.1 == key)).map (fun kv => kv.2)

/-- The method `cast<double>(key, def)`: the default when the key is absent,
otherwise the lexical cast of the value, whose failure is thrown.  The
lexical cast itself (a Boost function) is a parameter. -/
def device_addr_t.cast_double (lexical_cast : String → Option ℚ) (d : device_addr_t)
    (key : String) (dflt : ℚ) : Except uhd_exception ℚ :=
  match d.lookup key with
  | none => .ok dflt
  | some v =>
    match lexical_cast v with
    | some x => .ok x
    | none => .error (uhd_exception.runtime_error ("cannot cast " ++ key ++ " = " ++ v))

/-- The constants of the register map and of the device that the motherboard
code names and that are declared outside the two source files. -/
structure usrp2_consts where
  U2_REG_TX_CTRL_CYCLES_PER_UP : Nat
  U2_REG_TX_CTRL_PACKETS_PER_UP : Nat
  U2_FLAG_TX_CTRL_UP_ENB : Nat
  U2_REG_STATUS : Nat
  sram_bytes : Nat

/-- Modelled from the spec: the register peek/poke interface `usrp2_iface`,
an external collaborator (spec section 1) whose socket may be dead (spec
section 4.6).  The state records every `poke32` call made (`attempted`: the
address and the data as the caller passed them, in call order), the calls
whose control transaction went through (`written`), the number of control
transactions so far, which transactions throw (`fails`), and what a register
reads back. -/
structure usrp2_iface where
  attempted : List (Nat × Nat)
  written : List (Nat × Nat)
  transactions : Nat
  fails : Nat → Bool
  readback : Nat → Nat

/-- Modelled from the spec: `poke32(addr, data)`; the call is recorded, and
it throws when the control transaction fails. -/
def usrp2_iface.poke32 (i : usrp2_iface) (addr data : Nat) :
    usrp2_iface × Except uhd_exception Unit :=
  if i.fails i.transactions then
    ({ i with attempted := i.attempted ++ [(addr, data)]
              transactions := i.transactions + 1 },
     .error (uhd_exception.runtime_error "no control response"))
  else
    ({ i with attempted := i.attempted ++ [(addr, data)]
              written := i.written ++ [(addr, data)]
              transactions := i.transactions + 1 },
     .ok ())

/-- Modelled from the spec: `peek32(addr)`; it reads the register back, and
throws when the control transaction fails. -/
def usrp2_iface.peek32 (i : usrp2_iface) (addr : Nat) :
    usrp2_iface × Except uhd_exception Nat :=
  if i.fails i.transactions then
    ({ i with transactions := i.transactions + 1 },
     .error (uhd_exception.runtime_error "no control response"))
  else
    ({ i with transactions := i.transactions + 1 }, .ok (i.readback addr))

/-- The constructor step "initialize the clock configuration" of
`usrp2_mboard_impl::usrp2_mboard_impl`; the value returned is
`_mimo_clocking_mode_is_master`. -/
def ctor_mimo_mode (k : usrp2_consts) (device_addr : device_addr_t) (iface : usrp2_iface) :
    usrp2_iface × Except uhd_exception Bool :=
  if device_addr.has_key "mimo_mode" then
    match device_addr.lookup "mimo_mode" with
    | none => (iface, .error (uhd_exception.key_error "key not found: mimo_mode"))
    | some v =>
      if v = "master" then (iface, .ok true)
      else if v = "slave" then (iface, .ok false)
      else (iface, .error (uhd_exception.value_error "mimo_mode must be set to master or slave"))
  else
    match iface.peek32 k.U2_REG_STATUS with
    | (iface1, .error e) => (iface1, .error e)
    | (iface1, .ok status) => (iface1, .ok (status &&& (1 <<< 8) != 0))

/-- One entry of a subdevice specification: the daughterboard name and the
subdevice name. -/
structure subdev_spec_pair_t where
  db_name : String
  sd_name : String
  deriving DecidableEq, Repr

/-- The subdevice specification `subdev_spec_t`, a vector of pairs. -/
abbrev subdev_spec_t := List subdev_spec_pair_t

/-- The members of `usrp2_mboard_impl` that the destructor and the property
setters touch: the register interface, the clocking mode, the handles the
destructor resets (`true` while a handle is held) and the two subdevice
specifications. -/
structure usrp2_mboard_impl where
  _index : Nat
  _iface : usrp2_iface
  _mimo_clocking_mode_is_master : Bool
  _dboard_manager : Bool
  _dboard_iface : Bool
  _codec_ctrl : Bool
  _clock_ctrl : Bool
  _gps_ctrl : Bool
  _rx_subdev_spec : subdev_spec_t
  _tx_subdev_spec : subdev_spec_t

/-- A statement of the motherboard code: it changes the state and may throw. -/
abbrev mboard_stmt := usrp2_mboard_impl → usrp2_mboard_impl × Except uhd_exception Unit

/-- Sequencing of two statements: the second runs only when the first did
not throw. -/
def mboard_stmt.seq (a b : mboard_stmt) : mboard_stmt := fun mb =>
  match a mb with
  | (mb1, .error e) => (mb1, .error e)
  | (mb1, .ok _) => b mb1

/-- Modelled from the spec: the macro `UHD_SAFE_CALL(code)`, defined in a
header that is not among the sources; the code runs and an exception it
throws is suppressed (spec sections 4.6 and 7). -/
def UHD_SAFE_CALL (code : mboard_stmt) : mboard_stmt := fun mb =>
  match code mb with
  | (mb1, _) => (mb1, .ok ())

/-- The statement `_iface->poke32(addr, data);` on a motherboard. -/
def mboard_poke32 (addr data : Nat) : mboard_stmt := fun mb =>
  let r := mb._iface.poke32 addr data
  ({ mb with _iface := r.1 }, r.2)

/-- The destructor `usrp2_mboard_impl::~usrp2_mboard_impl`: seven safe calls
in a row. -/
def usrp2_mboard_impl.dtor (k : usrp2_consts) : mboard_stmt :=
  (UHD_SAFE_CALL (mboard_poke32 k.U2_REG_TX_CTRL_CYCLES_PER_UP 0)).seq <|
  (UHD_SAFE_CALL (mboard_poke32 k.U2_REG_TX_CTRL_PACKETS_PER_UP 0)).seq <|
  (UHD_SAFE_CALL (fun mb => ({ mb with _dboard_manager := false }, .ok ()))).seq <|
  (UHD_SAFE_CALL (fun mb => ({ mb with _dboard_iface := false }, .ok ()))).seq <|
  (UHD_SAFE_CALL (fun mb => ({ mb with _codec_ctrl := false }, .ok ()))).seq <|
  (UHD_SAFE_CALL (fun mb => ({ mb with _clock_ctrl := false }, .ok ()))).seq <|
  (UHD_SAFE_CALL (fun mb => ({ mb with _gps_ctrl := false }, .ok ())))

/-! ## Concrete collaborators and observation helpers

Sample frames, constants and interfaces on which the definitions are
evaluated, and the functions that read results off a state. -/

/-- A toy header decoder: a frame of eight numbers lists packet type (0 is
DATA, 1 is IF_CONTEXT, anything else EXT_CONTEXT), stream id, packet count,
has_tsi, tsi, has_tsf, tsf and the context code; any other frame is
rejected. -/
def sample_unpack (b : managed_recv_buffer) (num_packet_words32 : Nat) :
    Except String if_packet_info_t :=
  match b.data with
  | [ty, sid, cnt, htsi, tsi, htsf, tsf, _] =>
    .ok { packet_type :=
            if ty = 0 then packet_type_t.PACKET_TYPE_DATA
            else if ty = 1 then packet_type_t.PACKET_TYPE_IF_CONTEXT
            else packet_type_t.PACKET_TYPE_EXT_CONTEXT
          num_payload_words32 := 1
          num_header_words32 := 7
          num_packet_words32 := num_packet_words32
          packet_count := cnt
          sob := false
          eob := false
          sid := sid
          has_tsi := decide (htsi ≠ 0)
          tsi := tsi
          has_tsf := decide (htsf ≠ 0)
          tsf := tsf }
  | _ => .error "bad vrt header or packet fragment"

/-- The collaborators of the scavenger for the toy decoder, with the event
codes 2 (underflow) and 16 (underflow in packet). -/
def sample_env : pirate_env :=
  { if_hdr_unpack_be := sample_unpack
    get_context_code := fun b _ => b.data.getD 7 0
    EVENT_CODE_UNDERFLOW := 2
    EVENT_CODE_UNDERFLOW_IN_PACKET := 16
    assert_what := "assertion failed: has_tsi and has_tsf"
    master_clock_freq := 100000000 }

/-- A data frame for the toy decoder: stream id 0, the given packet count,
both timestamps present, integer seconds `tsi`. -/
def sample_data_frame (id cnt tsi : Nat) : managed_recv_buffer :=
  { id := id, data := [0, 0, cnt, 1, tsi, 1, 0, 0] }

/-- A data frame for the toy decoder that lacks the fractional timestamp. -/
def sample_untimed_frame (id cnt : Nat) : managed_recv_buffer :=
  { id := id, data := [0, 0, cnt, 1, 5, 0, 0, 0] }

/-- A TX async report for the toy decoder: stream id 1, IF_CONTEXT, the
given event code. -/
def sample_async_frame (id code : Nat) : managed_recv_buffer :=
  { id := id, data := [1, 1, 0, 1, 7, 1, 9, code] }

/-- The scavenger state right after `io_impl(32, 1)` was made and the loop
was entered. -/
def sample_state : pirate_state :=
  { next_packet_seq := 0
    io := { io_impl.ctor 32 1 with recv_pirate_crew_raiding := true }
    cerr := [] }

/-- The number of `O` indicators in a piece of `std::cerr` output. -/
def count_O (out : List cerr_event) : Nat := out.count cerr_event.O

/-- The part of the `std::cerr` output `after` that was written since
`before`. -/
def emitted (before after : List cerr_event) : List cerr_event :=
  after.drop before.length

/-- The async message that a result of `get_recv_buff` gives rise to in the
scavenger of worker `index`: the filled-in metadata for a frame that decodes
to stream id 1 with a packet type other than DATA, nothing otherwise. -/
def async_message_of (env : pirate_env) (index : Nat) :
    Option managed_recv_buffer → Option async_metadata_t
  | none => none
  | some buff =>
    match env.if_hdr_unpack_be buff (buff.size / 4) with
    | .error _ => none
    | .ok info =>
      if info.sid = 1 ∧ info.packet_type ≠ packet_type_t.PACKET_TYPE_DATA then
        some (fill_async_metadata env index buff info)
      else none

/-- The messages returned by `n` successive calls of `recv_async_msg`, in
call order, and the io state after the last call. -/
def recv_async_msgs (timeout : ℚ) : Nat → io_impl → List async_metadata_t × io_impl
  | 0, io => ([], io)
  | n + 1, io =>
    match recv_async_msg io timeout with
    | (none, io1) => recv_async_msgs timeout n io1
    | (some m, io1) => ((m :: (recv_async_msgs timeout n io1).1), (recv_async_msgs timeout n io1).2)

/-- The descriptor the toy decoder yields for `sample_data_frame`. -/
def sample_data_info (cnt tsi : Nat) : if_packet_info_t :=
  { packet_type := packet_type_t.PACKET_TYPE_DATA, num_payload_words32 := 1,
    num_header_words32 := 7, num_packet_words32 := 2, packet_count := cnt,
    sob := false, eob := false, sid := 0, has_tsi := true, tsi := tsi,
    has_tsf := true, tsf := 0 }

/-- The descriptor the toy decoder yields for `sample_untimed_frame`. -/
def sample_untimed_info (cnt : Nat) : if_packet_info_t :=
  { packet_type := packet_type_t.PACKET_TYPE_DATA, num_payload_words32 := 1,
    num_header_words32 := 7, num_packet_words32 := 2, packet_count := cnt,
    sob := false, eob := false, sid := 0, has_tsi := true, tsi := 5,
    has_tsf := false, tsf := 0 }

/-- The descriptor the toy decoder yields for `sample_async_frame`. -/
def sample_async_info : if_packet_info_t :=
  { packet_type := packet_type_t.PACKET_TYPE_IF_CONTEXT, num_payload_words32 := 1,
    num_header_words32 := 7, num_packet_words32 := 2, packet_count := 0,
    sob := false, eob := false, sid := 1, has_tsi := true, tsi := 7,
    has_tsf := true, tsf := 9 }

/-- An async message numbered by its channel, reporting an underflow. -/
def sample_msg (i : Nat) : async_metadata_t :=
  { channel := i
    has_time_spec := false
    time_spec := { full_secs := 0, tick_count := 0, tick_rate := 1 }
    event_code := 2 }

/-- A transport that hands out the send frame `id` whatever the timeout. -/
def ready_transport (id : Nat) : udp_zero_copy :=
  { get_send_buff := fun _ => some { id := id }
    send_frame_size := 1472
    recv_frame_size := 1472
    num_recv_frames := 32 }

/-- Sample constants for the register map: two distinct flow-control
registers, the enable flag in bit 31, and one MiB of SRAM. -/
def sample_consts : usrp2_consts :=
  { U2_REG_TX_CTRL_CYCLES_PER_UP := 1
    U2_REG_TX_CTRL_PACKETS_PER_UP := 2
    U2_FLAG_TX_CTRL_UP_ENB := 2147483648
    U2_REG_STATUS := 3
    sram_bytes := 1048576 }

/-- A register interface whose socket works: no transaction throws. -/
def live_iface : usrp2_iface :=
  { attempted := [], written := [], transactions := 0
    fails := fun _ => false
    readback := fun _ => 0 }

/-- A register interface whose socket is dead: every transaction throws. -/
def dead_iface : usrp2_iface :=
  { attempted := [], written := [], transactions := 0
    fails := fun _ => true
    readback := fun _ => 0 }

/-- A lexical cast that reads the two numerals "0" and "20". -/
def sample_lexical_cast (v : String) : Option ℚ :=
  if v = "0" then some 0 else if v = "20" then some 20 else none

/-- A motherboard that holds all its handles, on the given interface. -/
def sample_mboard (iface : usrp2_iface) : usrp2_mboard_impl :=
  { _index := 0
    _iface := iface
    _mimo_clocking_mode_is_master := true
    _dboard_manager := true
    _dboard_iface := true
    _codec_ctrl := true
    _clock_ctrl := true
    _gps_ctrl := true
    _rx_subdev_spec := []
    _tx_subdev_spec := [] }

/-- The push into the alignment buffer that a result of `get_recv_buff`
gives rise to in the scavenger of worker `index`: for a frame that decodes,
is not a TX async report and carries both timestamps, the frame with its
time spec and the worker index; nothing otherwise. -/
def booty_push_of (env : pirate_env) (index : Nat) :
    Option managed_recv_buffer → Option (managed_recv_buffer × time_spec_t × Nat)
  | none => none
  | some buff =>
    match env.if_hdr_unpack_be buff (buff.size / 4) with
    | .error _ => none
    | .ok info =>
      if info.sid = 1 ∧ info.packet_type ≠ packet_type_t.PACKET_TYPE_DATA then none
      else if info.has_tsi ∧ info.has_tsf then
        some (buff, { full_secs := (info.tsi : Int), tick_count := info.tsf,
                      tick_rate := env.master_clock_freq }, index)
      else none

/-- Push the element a frame gives rise to, when there is one. -/
def booty_apply (ab : alignment_buffer managed_recv_buffer time_spec_t)
    (p : Option (managed_recv_buffer × time_spec_t × Nat)) :
    alignment_buffer managed_recv_buffer time_spec_t :=
  match p with
  | none => ab
  | some x => ab.push_with_pop_on_full x.1 x.2.1 x.2.2

/-- A frame for the toy decoder that is too short to decode. -/
def sample_bad_frame (id : Nat) : managed_recv_buffer :=
  { id := id, data := [0, 0] }

/-! ## The motherboard: property setters -/

/-- The registers and flags of the 64-bit device time, declared in the
register map outside the two source files. -/
structure usrp2_time_consts where
  U2_REG_TIME64_TICKS : Nat
  U2_REG_TIME64_IMM : Nat
  U2_REG_TIME64_SECS : Nat
  U2_FLAG_TIME64_LATCH_NOW : Nat
  U2_FLAG_TIME64_LATCH_NEXT_PPS : Nat

/-- The collaborators of `usrp2_mboard_impl::set` that live outside the two
source files: `time_spec_t::get_tick_count`, the master clock rate, the two
verifiers of a subdevice specification (they may rewrite the specification
and may throw), the mux word of a subdevice by its name (the daughterboard
lookup followed by `calc_rx_mux_word`, respectively `calc_tx_mux_word`), the
mux registers, the numbers of DSPs, the message of a failed assertion and
`usrp2_impl::update_xport_channel_mapping`. -/
structure mboard_env where
  get_tick_count : time_spec_t → ℚ → Nat
  master_clock_freq : ℚ
  verify_rx_subdev_spec : subdev_spec_t → Except uhd_exception subdev_spec_t
  verify_tx_subdev_spec : subdev_spec_t → Except uhd_exception subdev_spec_t
  rx_mux_word : String → Except uhd_exception Nat
  tx_mux_word : String → Except uhd_exception Nat
  U2_REG_DSP_RX_MUX : Nat → Nat
  U2_REG_DSP_TX_MUX : Nat
  NUM_RX_DSPS : Nat
  NUM_TX_DSPS : Nat
  assert_what : String
  update_xport_channel_mapping : mboard_stmt

/-- The conversion `boost::uint32_t(x)` of a signed integer. -/
def to_uint32 (x : Int) : Nat := (x % 4294967296).toNat

/-- The method `usrp2_mboard_impl::set_time_spec`: nothing for a slave; for
a master the ticks, the latch flag and the seconds, in this order. -/
def set_time_spec (tk : usrp2_time_consts) (e : mboard_env) (time_spec : time_spec_t)
    (now : Bool) : mboard_stmt := fun mb =>
  if !mb._mimo_clocking_mode_is_master then (mb, .ok ())
  else
    ((mboard_poke32 tk.U2_REG_TIME64_TICKS (e.get_tick_count time_spec e.master_clock_freq)).seq <|
     (mboard_poke32 tk.U2_REG_TIME64_IMM
        (if now then tk.U2_FLAG_TIME64_LATCH_NOW else tk.U2_FLAG_TIME64_LATCH_NEXT_PPS)).seq <|
     (mboard_poke32 tk.U2_REG_TIME64_SECS (to_uint32 time_spec.full_secs))) mb

/-- How a piece of the C++ code can end other than normally: with an
exception, or with undefined behaviour, which is either `operator[]` or
`front()` of a vector applied at or past its size, or a division of integers
by zero, or the conversion of a `double` to an integer type that cannot hold
its value. -/
inductive cpp_fault where
  | thrown (e : uhd_exception)
  | read_past_end (i : Nat)
  | division_by_zero
  | conversion_out_of_range
  deriving DecidableEq, Repr

/-- A motherboard statement as a step of a property setter. -/
def lift_stmt (a : mboard_stmt) (mb : usrp2_mboard_impl) :
    usrp2_mboard_impl × Except cpp_fault Unit :=
  match a mb with
  | (mb1, .error ex) => (mb1, .error (cpp_fault.thrown ex))
  | (mb1, .ok _) => (mb1, .ok ())

/-- The loop "set the mux" of the RX case from index `i`, with `n`
iterations left: `poke32(U2_REG_DSP_RX_MUX(i), mux word of _rx_subdev_spec[i])`. -/
def rx_mux_loop (e : mboard_env) :
    Nat → Nat → usrp2_mboard_impl → usrp2_mboard_impl × Except cpp_fault Unit
  | 0, _, mb => (mb, .ok ())
  | n + 1, i, mb =>
    match mb._rx_subdev_spec[i]? with
    | none => (mb, .error (cpp_fault.read_past_end i))
    | some p =>
      match e.rx_mux_word p.sd_name with
      | .error ex => (mb, .error (cpp_fault.thrown ex))
      | .ok w =>
        match mboard_poke32 (e.U2_REG_DSP_RX_MUX i) w mb with
        | (mb1, .error ex) => (mb1, .error (cpp_fault.thrown ex))
        | (mb1, .ok _) => rx_mux_loop e n (i + 1) mb1

/-- The loop "set the mux" of the TX case from index `i`, with `n`
iterations left: `poke32(U2_REG_DSP_TX_MUX, mux word of _tx_subdev_spec[i])`. -/
def tx_mux_loop (e : mboard_env) :
    Nat → Nat → usrp2_mboard_impl → usrp2_mboard_impl × Except cpp_fault Unit
  | 0, _, mb => (mb, .ok ())
  | n + 1, i, mb =>
    match mb._tx_subdev_spec[i]? with
    | none => (mb, .error (cpp_fault.read_past_end i))
    | some p =>
      match e.tx_mux_word p.sd_name with
      | .error ex => (mb, .error (cpp_fault.thrown ex))
      | .ok w =>
        match mboard_poke32 e.U2_REG_DSP_TX_MUX w mb with
        | (mb1, .error ex) => (mb1, .error (cpp_fault.thrown ex))
        | (mb1, .ok _) => tx_mux_loop e n (i + 1) mb1

/-- The requests to `usrp2_mboard_impl::set` that are modelled: the key with
the value already cast to the type the case expects. -/
inductive mboard_set_request where
  | MBOARD_PROP_TIME_NOW (val : time_spec_t)
  | MBOARD_PROP_TIME_PPS (val : time_spec_t)
  | MBOARD_PROP_RX_SUBDEV_SPEC (val : subdev_spec_t)
  | MBOARD_PROP_TX_SUBDEV_SPEC (val : subdev_spec_t)

/-- The method `usrp2_mboard_impl::set` on the four modelled keys.  In the TX
case the loop that sets the mux runs to `_rx_subdev_spec.size()`, as the
source has it. -/
def usrp2_mboard_impl.set (tk : usrp2_time_consts) (e : mboard_env) :
    mboard_set_request → usrp2_mboard_impl → usrp2_mboard_impl × Except cpp_fault Unit
  | .MBOARD_PROP_TIME_NOW val, mb => lift_stmt (set_time_spec tk e val true) mb
  | .MBOARD_PROP_TIME_PPS val, mb => lift_stmt (set_time_spec tk e val false) mb
  | .MBOARD_PROP_RX_SUBDEV_SPEC val, mb =>
    match e.verify_rx_subdev_spec val with
    | .error ex => ({ mb with _rx_subdev_spec := val }, .error (cpp_fault.thrown ex))
    | .ok spec =>
      if spec.length ≤ e.NUM_RX_DSPS then
        match rx_mux_loop e spec.length 0 { mb with _rx_subdev_spec := spec } with
        | (mb1, .error f) => (mb1, .error f)
        | (mb1, .ok _) => lift_stmt e.update_xport_channel_mapping mb1
      else
        ({ mb with _rx_subdev_spec := spec },
         .error (cpp_fault.thrown (uhd_exception.assertion_error e.assert_what)))
  | .MBOARD_PROP_TX_SUBDEV_SPEC val, mb =>
    match e.verify_tx_subdev_spec val with
    | .error ex => ({ mb with _tx_subdev_spec := val }, .error (cpp_fault.thrown ex))
    | .ok spec =>
      if spec.length ≤ e.NUM_TX_DSPS then
        match tx_mux_loop e mb._rx_subdev_spec.length 0 { mb with _tx_subdev_spec := spec } with
        | (mb1, .error f) => (mb1, .error f)
        | (mb1, .ok _) => lift_stmt e.update_xport_channel_mapping mb1
      else
        ({ mb with _tx_subdev_spec := spec },
         .error (cpp_fault.thrown (uhd_exception.assertion_error e.assert_what)))

/-- Sample constants for the time registers. -/
def sample_time_consts : usrp2_time_consts :=
  { U2_REG_TIME64_TICKS := 10
    U2_REG_TIME64_IMM := 11
    U2_REG_TIME64_SECS := 12
    U2_FLAG_TIME64_LATCH_NOW := 1
    U2_FLAG_TIME64_LATCH_NEXT_PPS := 0 }

/-- Sample collaborators of the setters: the tick count is the stored one,
the verifiers accept a specification as it is, every subdevice has the mux
word 1, two RX DSPs and one TX DSP. -/
def sample_mboard_env : mboard_env :=
  { get_tick_count := fun t _ => t.tick_count
    master_clock_freq := 100000000
    verify_rx_subdev_spec := fun s => .ok s
    verify_tx_subdev_spec := fun s => .ok s
    rx_mux_word := fun _ => .ok 1
    tx_mux_word := fun _ => .ok 1
    U2_REG_DSP_RX_MUX := fun i => 20 + i
    U2_REG_DSP_TX_MUX := 30
    NUM_RX_DSPS := 2
    NUM_TX_DSPS := 1
    assert_what := "assertion failed"
    update_xport_channel_mapping := fun mb => (mb, .ok ()) }

/-- A slave motherboard on the given interface. -/
def sample_slave (iface : usrp2_iface) : usrp2_mboard_impl :=
  { sample_mboard iface with _mimo_clocking_mode_is_master := false }

/-- A motherboard whose RX specification has two entries (both DSPs in use)
and whose TX specification has one. -/
def sample_dual_rx (iface : usrp2_iface) : usrp2_mboard_impl :=
  { sample_mboard iface with
    _rx_subdev_spec := [{ db_name := "A", sd_name := "A" }, { db_name := "A", sd_name := "B" }]
    _tx_subdev_spec := [{ db_name := "A", sd_name := "0" }] }

/-! ## Bring-up: flow control -/

/-- Modelled from the spec: the implicit conversion of a `size_t` argument to
the `boost::uint32_t` data parameter of `poke32`, which is declared outside
the sources at hand (`set_time_spec` writes the same conversion out as
`boost::uint32_t(...)`): the low 32 bits. -/
def narrow_uint32 (x : Nat) : Nat := x % 4294967296

/-- The arithmetic of `double` that the flow-control step relies on, a
property of the platform and not of the sources: the quotient of two finite
doubles as the hardware rounds it (`none` when the result is not a finite
number, as for a division by zero), and the conversion of a `size_t` value
to `double`.  A finite double is a rational number. -/
structure double_arith where
  div : ℚ → ℚ → Option ℚ
  of_size_t : Nat → ℚ

/-- The conversion `size_t(x)` of a finite `double`: truncation toward zero.
It is undefined (`none`) when the truncated value is not a `size_t` value. -/
def double_to_size_t (x : ℚ) : Option Nat :=
  if -1 < x ∧ x < (size_t_mod : ℚ) then some (Int.toNat ⌊x⌋) else none

/-- One of the two blocks of the flow-control step, once the option is known
to be positive: `size_t(quotient)`, then
`_iface->poke32(reg, U2_FLAG_TX_CTRL_UP_ENB | value)`, the argument being
narrowed to the 32-bit parameter.  `quotient` is the `double` the block
computes, `none` when it is not a finite number. -/
def flow_control_update (k : usrp2_consts) (reg : Nat) (quotient : Option ℚ)
    (iface : usrp2_iface) : usrp2_iface × Except cpp_fault Unit :=
  match quotient.bind double_to_size_t with
  | none => (iface, .error cpp_fault.conversion_out_of_range)
  | some per_up =>
    match iface.poke32 reg (narrow_uint32 (k.U2_FLAG_TX_CTRL_UP_ENB ||| per_up)) with
    | (iface1, .error e) => (iface1, .error (cpp_fault.thrown e))
    | (iface1, .ok _) => (iface1, .ok ())

/-- The constructor step "setting the cycles per update" and "setting the
packets per update" of `usrp2_mboard_impl::usrp2_mboard_impl`.
`master_clock_rate` is `_clock_ctrl->get_master_clock_rate()` and
`send_frame_size` is `device.dsp_xports[0]->get_send_frame_size()`.  The
quotients are `master_clock_rate/ups_per_sec` and
`usrp2_impl::sram_bytes/ups_per_fifo/send_frame_size`, both in `double`. -/
def ctor_flow_control (k : usrp2_consts) (fp : double_arith)
    (lexical_cast : String → Option ℚ)
    (device_addr : device_addr_t) (master_clock_rate : ℚ) (send_frame_size : Nat)
    (iface : usrp2_iface) : usrp2_iface × Except cpp_fault Unit :=
  match device_addr.cast_double lexical_cast "ups_per_sec" 20 with
  | .error e => (iface, .error (cpp_fault.thrown e))
  | .ok ups_per_sec =>
    let r1 : usrp2_iface × Except cpp_fault Unit :=
      if ups_per_sec > 0 then
        flow_control_update k k.U2_REG_TX_CTRL_CYCLES_PER_UP
          (fp.div master_clock_rate ups_per_sec) iface
      else (iface, .ok ())
    match r1 with
    | (iface1, .error f) => (iface1, .error f)
    | (iface1, .ok _) =>
      match device_addr.cast_double lexical_cast "ups_per_fifo" 8 with
      | .error e => (iface1, .error (cpp_fault.thrown e))
      | .ok ups_per_fifo =>
        if ups_per_fifo > 0 then
          flow_control_update k k.U2_REG_TX_CTRL_PACKETS_PER_UP
            ((fp.div (fp.of_size_t k.sram_bytes) ups_per_fifo).bind
              (fun q => fp.div q (fp.of_size_t send_frame_size))) iface1
        else (iface1, .ok ())

/-- A sample arithmetic that divides without rounding and converts a
`size_t` value as it is; the hardware agrees with it whenever the exact
result is a double.  A division by zero has no finite result. -/
def exact_double_arith : double_arith :=
  { div := fun x y => if y = 0 then none else some (x / y)
    of_size_t := fun n => (n : ℚ) }

/-- A lexical cast that reads the numeral "0.0009765625", which is 1/1024. -/
def sample_lexical_cast_fraction (v : String) : Option ℚ :=
  if v = "0.0009765625" then some (1 / 1024) else none

/-! ## Bring-up: probes, purge and `io_init` -/

/-- The four bytes that `htonl(x)` (or `uhd::htonx`) leaves in memory: the
32-bit word `x`, most significant byte first. -/
def be32 (x : Nat) : List Nat :=
  [x / 16777216 % 256, x / 65536 % 256, x / 256 % 256, x % 256]

/-- The call `std::memcpy(dst, src, n)` on the bytes of a frame. -/
def memcpy (dst src : List Nat) (n : Nat) : List Nat := src.take n ++ dst.drop n

/-- A zero-copy transport with its state: the frames waiting to be received
(oldest first), the bytes of the send frame it hands out, the datagrams
committed so far (oldest first) and the size of its receive pool.  A send
frame is taken to be at hand and large enough for a probe. -/
structure zero_copy_if where
  recv_queue : List managed_recv_buffer
  send_frame : List Nat
  sent : List (List Nat)
  num_recv_frames : Nat

/-- The sequence `get_send_buff()`, `memcpy(send_buff, &data, sizeof(data))`,
`commit(sizeof(data))`: one datagram of `sizeof(data)` bytes leaves. -/
def zero_copy_if.send_data (x : zero_copy_if) (data : List Nat) : zero_copy_if :=
  { x with sent := x.sent ++ [(memcpy x.send_frame data data.length).take data.length] }

/-- The function `init_xport` of `mboard_impl.cpp`: the static array `data`
holds two words, a zero and the invalid VRT header, both in network order,
and all of it is sent. -/
def init_xport (USRP2_INVALID_VRT_HEADER : Nat) (xport : zero_copy_if) : zero_copy_if :=
  xport.send_data (be32 0 ++ be32 USRP2_INVALID_VRT_HEADER)

/-- The loop `while (data_transport->get_recv_buff().get()){}` of `io_init`
on the waiting frames: a frame is taken and dropped, a null buffer ends the
loop. -/
def drain_queue : List managed_recv_buffer → List managed_recv_buffer
  | [] => []
  | _ :: q => drain_queue q

/-- The body of the first loop of `io_init` on one data transport: the
probe, one word in network order, then the drain. -/
def io_init_transport (USRP2_INVALID_VRT_HEADER : Nat) (data_transport : zero_copy_if) :
    zero_copy_if :=
  let x := data_transport.send_data (be32 USRP2_INVALID_VRT_HEADER)
  { x with recv_queue := drain_queue x.recv_queue }

/-- What `io_init` leaves behind: the data transports, the new `io_impl`, and
the worker indices of the scavenger threads it created, in creation order. -/
structure io_init_result where
  _data_transports : List zero_copy_if
  _io_impl : io_impl
  recv_pirate_crew : List Nat

/-- The function `usrp2_impl::io_init`.  `front()` of an empty vector is
undefined behaviour; `_mboards.at(i)` throws when there are fewer
motherboards than data transports. -/
def io_init (USRP2_INVALID_VRT_HEADER : Nat) (_data_transports : List zero_copy_if)
    (num_mboards : Nat) : Except cpp_fault io_init_result :=
  let transports := _data_transports.map (io_init_transport USRP2_INVALID_VRT_HEADER)
  match transports.head? with
  | none => .error (cpp_fault.read_past_end 0)
  | some front =>
    let num_frames := front.num_recv_frames
    if transports.length ≤ num_mboards then
      .ok { _data_transports := transports
            _io_impl := io_impl.ctor num_frames transports.length
            recv_pirate_crew := List.range transports.length }
    else .error (cpp_fault.thrown (uhd_exception.out_of_range "vector::_M_range_check"))

/-- The value of a four-byte big-endian sequence. -/
def be32_value (bytes : List Nat) : Nat :=
  bytes.foldl (fun acc b => acc * 256 + b) 0

/-- A run of pushes into an alignment buffer. -/
def alignment_buffer.push_all {α τ : Type} (ab : alignment_buffer α τ)
    (ps : List (α × τ × Nat)) : alignment_buffer α τ :=
  ps.foldl (fun a p => a.push_with_pop_on_full p.1 p.2.1 p.2.2) ab

/-- A transport with the given waiting frames and receive pool size, a send
frame of 1472 stale bytes, and nothing sent yet. -/
def sample_xport (queue : List managed_recv_buffer) (num_recv_frames : Nat) : zero_copy_if :=
  { recv_queue := queue
    send_frame := List.replicate 1472 255
    sent := []
    num_recv_frames := num_recv_frames }

/-- What a call of the static function `handle_overflow` of `io_impl.cpp`
does: the text on `std::cerr`, and the index of the motherboard whose
`handle_overflow` it invoked, or how it failed. -/
structure overflow_result where
  cerr : List cerr_event
  invoked : Except cpp_fault Nat

/-- The static function `handle_overflow(mboards, chan)`: an `O`, then
`mboards.at(chan/mboards.size())->handle_overflow()`.  The division is
undefined for an empty vector, and `at` throws when the index is out of
range. -/
def handle_overflow (mboards : List usrp2_mboard_impl) (chan : Nat)
    (cerr : List cerr_event) : overflow_result :=
  { cerr := cerr ++ [cerr_event.O]
    invoked :=
      if mboards.length = 0 then .error cpp_fault.division_by_zero
      else if chan / mboards.length < mboards.length then .ok (chan / mboards.length)
      else .error (cpp_fault.thrown (uhd_exception.out_of_range "vector::_M_range_check")) }

/-- The routing the specification asks for (section 9): channel `chan`
belongs to the motherboard `chan / channels_per_mboard`. -/
def spec_overflow_mboard (channels_per_mboard chan : Nat) : Nat := chan / channels_per_mboard

/-! ## Daughterboard validation -/

/-- The daughterboard interface as the validator uses it:
`read_eeprom(addr, offset, num_bytes)` and the flag `mangle_i2c_addrs` of the
special properties. -/
structure dboard_iface where
  read_eeprom : Nat → Nat → Nat → List Nat
  mangle_i2c_addrs : Bool

/-- The macro `EE_DB_ID_OFFSET`. -/
def EE_DB_ID_OFFSET : Nat := 0x99

/-- The macro `EE_SERIAL_MSB_OFFSET`. -/
def EE_SERIAL_MSB_OFFSET : Nat := 0xBE

/-- The macro `EE_SERIAL_LSB_OFFSET`. -/
def EE_SERIAL_LSB_OFFSET : Nat := 0xC7

/-- The macro `EE_RANDOM_OFFSET`. -/
def EE_RANDOM_OFFSET : Nat := 0xD3

/-- The macro `EE_MD5SUM_OFFSET`. -/
def EE_MD5SUM_OFFSET : Nat := 0xA1

/-- The macro `EE_HOST_SECRET`. -/
def EE_HOST_SECRET : String := "899bukESe2EmuspU"

/-- The table `ids` of `validate_dboard_xx`: pairs of an RX id and a TX id,
for SBX and TVRX2.  The value of `dboard_id_t::none()` is a parameter. -/
def validate_ids (none_id : Nat) : List (Nat × Nat) :=
  [(0x54, 0x55), (0x46, none_id)]

/-- The loop "look for id matches in the table above"; both tests compare
`ids[i].first`, as the source has it. -/
def found_match_loop (xx : String) (db_id : Nat) : List (Nat × Nat) → Bool
  | [] => false
  | p :: rest =>
    if xx = "rx" ∧ p.1 = db_id then true
    else if xx = "tx" ∧ p.1 = db_id then true
    else found_match_loop xx db_id rest

/-- How `validate_dboard_xx` ends: by the early `return` when no match was
found, by reaching its end after the check, or by a throw. -/
inductive validate_outcome where
  | returned_without_check
  | check_passed
  | thrown (what : String)
  deriving DecidableEq, Repr

/-- What `validate_dboard_xx` does: the EEPROM reads it made (address,
offset, number of bytes), in order, and how it ended. -/
structure validate_result where
  eeprom_reads : List (Nat × Nat × Nat)
  outcome : validate_outcome
  deriving DecidableEq, Repr

/-- One single-byte read `db_iface->read_eeprom(ee_addr, offset, 1).at(0)`;
`at(0)` throws on an empty answer. -/
def read_byte (db_iface : dboard_iface) (ee_addr offset : Nat) : Option Nat :=
  (db_iface.read_eeprom ee_addr offset 1).head?

/-- The function `validate_dboard_xx`.  The MD5 digest (a class of the
library outside the sources) is a parameter. -/
def validate_dboard_xx (md5 : List Nat → List Nat) (none_id : Nat) (db_iface : dboard_iface)
    (db_id : Nat) (xx : String) : validate_result :=
  if ¬ found_match_loop xx db_id (validate_ids none_id) = true then
    { eeprom_reads := [], outcome := validate_outcome.returned_without_check }
  else
    let ee_addr := (if xx = "rx" then 0x55 else 0x54)
      ||| (if db_iface.mangle_i2c_addrs then 0x02 else 0x00)
    match read_byte db_iface ee_addr EE_DB_ID_OFFSET with
    | none => { eeprom_reads := [(ee_addr, EE_DB_ID_OFFSET, 1)],
                outcome := validate_outcome.thrown "vector::_M_range_check" }
    | some b0 =>
      match read_byte db_iface ee_addr EE_SERIAL_MSB_OFFSET with
      | none => { eeprom_reads := [(ee_addr, EE_DB_ID_OFFSET, 1), (ee_addr, EE_SERIAL_MSB_OFFSET, 1)],
                  outcome := validate_outcome.thrown "vector::_M_range_check" }
      | some b1 =>
        match read_byte db_iface ee_addr EE_SERIAL_LSB_OFFSET with
        | none => { eeprom_reads := [(ee_addr, EE_DB_ID_OFFSET, 1),
                      (ee_addr, EE_SERIAL_MSB_OFFSET, 1), (ee_addr, EE_SERIAL_LSB_OFFSET, 1)],
                    outcome := validate_outcome.thrown "vector::_M_range_check" }
        | some b2 =>
          match read_byte db_iface ee_addr EE_RANDOM_OFFSET with
          | none => { eeprom_reads := [(ee_addr, EE_DB_ID_OFFSET, 1),
                        (ee_addr, EE_SERIAL_MSB_OFFSET, 1), (ee_addr, EE_SERIAL_LSB_OFFSET, 1),
                        (ee_addr, EE_RANDOM_OFFSET, 1)],
                      outcome := validate_outcome.thrown "vector::_M_range_check" }
          | some b3 =>
            let bytes := [b0, b1, b2, b3] ++ EE_HOST_SECRET.toList.map Char.toNat
            let md5sum_ee_bytes := db_iface.read_eeprom ee_addr EE_MD5SUM_OFFSET 16
            let md5sum_host_bytes := md5 bytes
            { eeprom_reads := [(ee_addr, EE_DB_ID_OFFSET, 1), (ee_addr, EE_SERIAL_MSB_OFFSET, 1),
                (ee_addr, EE_SERIAL_LSB_OFFSET, 1), (ee_addr, EE_RANDOM_OFFSET, 1),
                (ee_addr, EE_MD5SUM_OFFSET, 16)]
              outcome :=
                if md5sum_ee_bytes = md5sum_host_bytes.take md5sum_ee_bytes.length then
                  validate_outcome.check_passed
                else validate_outcome.thrown
                  "operation borked with code 11, contact support@ettus.com" }

/-- The lookup as the claim states it: for "rx" the id is the first id of
some pair of the table, for "tx" it is the second id of some pair. -/
def spec_found_match (none_id : Nat) (xx : String) (db_id : Nat) : Bool :=
  (decide (xx = "rx") && (validate_ids none_id).any (fun p => p.1 == db_id))
  || (decide (xx = "tx") && (validate_ids none_id).any (fun p => p.2 == db_id))

/-- A daughterboard interface whose EEPROM reads as zeros. -/
def blank_dboard_iface : dboard_iface :=
  { read_eeprom := fun _ _ n => List.replicate n 0
    mangle_i2c_addrs := false }

/-- A stand-in for the digest: sixteen zero bytes whatever the input. -/
def zero_md5 (_bytes : List Nat) : List Nat := List.replicate 16 0

/-! # Properties

All definitions are above this line; the lemmas and the theorems follow. -/

/-! ## Helper lemmas -/

theorem lor_eq_zero_iff (a b : Nat) : a ||| b = 0 ↔ a = 0 ∧ b = 0 := by
  constructor
  · intro h
    have hbit : ∀ i, (a.testBit i || b.testBit i) = false := by
      intro i
      rw [← Nat.testBit_or, h, Nat.zero_testBit]
    constructor
    · apply Nat.eq_of_testBit_eq
      intro i
      have := hbit i
      rw [Nat.zero_testBit]
      cases ha : a.testBit i <;> simp_all
    · apply Nat.eq_of_testBit_eq
      intro i
      have := hbit i
      rw [Nat.zero_testBit]
      cases hb : b.testBit i <;> simp_all
  · rintro ⟨rfl, rfl⟩
    simp

theorem land_flags_ne_zero_iff (x a b : Nat) :
    x &&& (a ||| b) ≠ 0 ↔ (x &&& a ≠ 0 ∨ x &&& b ≠ 0) := by
  rw [Nat.and_or_distrib_left, Ne, lor_eq_zero_iff]
  tauto

theorem size_t_add_one_mod_16 (c : Nat) : size_t_add c 1 % 16 = (c + 1) % 16 := by
  unfold size_t_add size_t_mod
  exact Nat.mod_mod_of_dvd _ (by norm_num)

/-! ## The receive scavenger -/

/-- The `try` block on a TX async report: the message is pushed, `U` is
written when the code meets the underflow flags, nothing is thrown. -/
theorem recv_pirate_try_async (env : pirate_env) (index : Nat) (buff : managed_recv_buffer)
    (s : pirate_state) (info : if_packet_info_t)
    (hdec : env.if_hdr_unpack_be buff (buff.size / 4) = .ok info)
    (hsid : info.sid = 1)
    (htype : info.packet_type ≠ packet_type_t.PACKET_TYPE_DATA) :
    recv_pirate_try env index buff s
      = ({ next_packet_seq := s.next_packet_seq
           io := { s.io with
                   async_msg_fifo := s.io.async_msg_fifo.push_with_pop_on_full
                     (fill_async_metadata env index buff info) }
           cerr := s.cerr ++
             (if env.get_context_code buff info &&& underflow_flags env ≠ 0
              then [cerr_event.U] else []) }, none) := by
  unfold recv_pirate_try
  rw [hdec]
  simp only
  rw [if_pos ⟨hsid, htype⟩]
  by_cases hc : env.get_context_code buff info &&& underflow_flags env ≠ 0
  · simp only [fill_async_metadata, hc, if_true, ne_eq, not_false_eq_true]
  · simp only [fill_async_metadata, hc, if_false, List.append_nil]

/-- The `try` block on a data packet: `O` on a sequence mismatch, the new
expected sequence number, then either the push into the alignment buffer or
the failed assertion. -/
theorem recv_pirate_try_data (env : pirate_env) (index : Nat) (buff : managed_recv_buffer)
    (s : pirate_state) (info : if_packet_info_t)
    (hdec : env.if_hdr_unpack_be buff (buff.size / 4) = .ok info)
    (hdata : ¬ (info.sid = 1 ∧ info.packet_type ≠ packet_type_t.PACKET_TYPE_DATA)) :
    recv_pirate_try env index buff s
      = if info.has_tsi ∧ info.has_tsf then
          ({ next_packet_seq := (info.packet_count + 1) % 16
             io := { s.io with
                     recv_pirate_booty := s.io.recv_pirate_booty.push_with_pop_on_full buff
                       { full_secs := (info.tsi : Int), tick_count := info.tsf,
                         tick_rate := env.master_clock_freq } index }
             cerr := s.cerr ++
               (if info.packet_count ≠ s.next_packet_seq then [cerr_event.O] else []) }, none)
        else
          ({ next_packet_seq := (info.packet_count + 1) % 16
             io := s.io
             cerr := s.cerr ++
               (if info.packet_count ≠ s.next_packet_seq then [cerr_event.O] else []) },
           some env.assert_what) := by
  unfold recv_pirate_try
  rw [hdec]
  simp only
  rw [if_neg hdata, size_t_add_one_mod_16]
  by_cases hc : info.packet_count ≠ s.next_packet_seq
  · simp only [hc, if_true, ne_eq, not_false_eq_true]
  · simp only [hc, if_false, List.append_nil]

/-- One iteration on a data packet, spelled out. -/
theorem recv_pirate_iteration_data (env : pirate_env) (index : Nat)
    (buff : managed_recv_buffer) (s : pirate_state) (info : if_packet_info_t)
    (hdec : env.if_hdr_unpack_be buff (buff.size / 4) = .ok info)
    (hdata : ¬ (info.sid = 1 ∧ info.packet_type ≠ packet_type_t.PACKET_TYPE_DATA)) :
    recv_pirate_iteration env index (some buff) s
      = { next_packet_seq := (info.packet_count + 1) % 16
          io := if info.has_tsi ∧ info.has_tsf then
                  { s.io with
                    recv_pirate_booty := s.io.recv_pirate_booty.push_with_pop_on_full buff
                      { full_secs := (info.tsi : Int), tick_count := info.tsf,
                        tick_rate := env.master_clock_freq } index }
                else s.io
          cerr := s.cerr
            ++ (if info.packet_count ≠ s.next_packet_seq then [cerr_event.O] else [])
            ++ (if info.has_tsi ∧ info.has_tsf then [] else [cerr_event.error env.assert_what]) } := by
  unfold recv_pirate_iteration
  simp only
  rw [recv_pirate_try_data env index buff s info hdec hdata]
  by_cases hts : info.has_tsi ∧ info.has_tsf
  · simp only [hts, and_self, if_true, List.append_nil]
  · simp only [hts, if_false]

theorem emitted_append (before out : List cerr_event) : emitted before (before ++ out) = out := by
  simp [emitted]

/-- C1: for a frame that decodes to a descriptor with stream id 1 and a
packet type other than DATA, one loop iteration pushes exactly the async
message built from it (channel is the worker index, event code is the
context code of the payload) into the async FIFO, writes `U` exactly when
the code has the UNDERFLOW or the UNDERFLOW_IN_PACKET bit, and leaves the
alignment buffer and the expected sequence number as they were. -/
theorem async_report_routing (env : pirate_env) (index : Nat) (buff : managed_recv_buffer)
    (s : pirate_state) (info : if_packet_info_t)
    (hdec : env.if_hdr_unpack_be buff (buff.size / 4) = .ok info)
    (hsid : info.sid = 1)
    (htype : info.packet_type ≠ packet_type_t.PACKET_TYPE_DATA) :
    (recv_pirate_iteration env index (some buff) s).io.async_msg_fifo
        = s.io.async_msg_fifo.push_with_pop_on_full (fill_async_metadata env index buff info)
    ∧ (fill_async_metadata env index buff info).channel = index
    ∧ (fill_async_metadata env index buff info).event_code = env.get_context_code buff info
    ∧ (recv_pirate_iteration env index (some buff) s).cerr
        = s.cerr ++
          (if env.get_context_code buff info &&& env.EVENT_CODE_UNDERFLOW ≠ 0
              ∨ env.get_context_code buff info &&& env.EVENT_CODE_UNDERFLOW_IN_PACKET ≠ 0
           then [cerr_event.U] else [])
    ∧ (recv_pirate_iteration env index (some buff) s).io.recv_pirate_booty
        = s.io.recv_pirate_booty
    ∧ (recv_pirate_iteration env index (some buff) s).next_packet_seq = s.next_packet_seq := by
  have hflag := land_flags_ne_zero_iff (env.get_context_code buff info)
    env.EVENT_CODE_UNDERFLOW env.EVENT_CODE_UNDERFLOW_IN_PACKET
  have hiter : recv_pirate_iteration env index (some buff) s
      = (recv_pirate_try env index buff s).1 := by
    unfold recv_pirate_iteration
    simp only
    rw [recv_pirate_try_async env index buff s info hdec hsid htype]
  rw [hiter, recv_pirate_try_async env index buff s info hdec hsid htype]
  refine ⟨rfl, rfl, rfl, ?_, rfl, rfl⟩
  simp only [underflow_flags]
  by_cases hc : env.get_context_code buff info
      &&& (env.EVENT_CODE_UNDERFLOW ||| env.EVENT_CODE_UNDERFLOW_IN_PACKET) ≠ 0
  · rw [if_pos hc, if_pos (hflag.mp hc)]
  · rw [if_neg hc, if_neg (fun h => hc (hflag.mpr h))]

/-- Witness of C1 on the toy decoder: an IF_CONTEXT frame on stream 1 with
event code 2 is routed to the async FIFO of worker 0 and a `U` is written. -/
theorem async_report_routing_witness :
    sample_env.if_hdr_unpack_be (sample_async_frame 1 2) ((sample_async_frame 1 2).size / 4)
        = .ok sample_async_info
    ∧ sample_async_info.sid = 1
    ∧ sample_async_info.packet_type ≠ packet_type_t.PACKET_TYPE_DATA
    ∧ (recv_pirate_iteration sample_env 0 (some (sample_async_frame 1 2)) sample_state).cerr
        = [cerr_event.U]
    ∧ (recv_pirate_iteration sample_env 0 (some (sample_async_frame 1 2))
          sample_state).io.async_msg_fifo.elems.map (fun m => (m.channel, m.event_code))
        = [(0, 2)] := by
  have h := async_report_routing sample_env 0 (sample_async_frame 1 2) sample_state
    sample_async_info rfl rfl (by decide)
  refine ⟨rfl, rfl, by decide, ?_, ?_⟩
  · rw [h.2.2.2.1]; rfl
  · rw [h.1]; rfl

/-- C2: for a data packet with packet count `c` met while the expected
sequence number is `e`, the iteration writes an `O` if and only if `c ≠ e`
(and then exactly one), and the expected sequence number becomes
`(c + 1) mod 16`.  For three data packets with the counts 0, 1, 3 the loop,
entered with expected sequence number 0, writes no `O` on the first two,
exactly one `O` in all, and ends with expected sequence number 4. -/
theorem sequence_gap_signal (env : pirate_env) (index : Nat) (buff : managed_recv_buffer)
    (s : pirate_state) (info : if_packet_info_t)
    (hdec : env.if_hdr_unpack_be buff (buff.size / 4) = .ok info)
    (hdata : ¬ (info.sid = 1 ∧ info.packet_type ≠ packet_type_t.PACKET_TYPE_DATA))
    (b0 b1 b3 : managed_recv_buffer) (i0 i1 i3 : if_packet_info_t)
    (io : io_impl) (cerr : List cerr_event)
    (hdec0 : env.if_hdr_unpack_be b0 (b0.size / 4) = .ok i0)
    (hdata0 : ¬ (i0.sid = 1 ∧ i0.packet_type ≠ packet_type_t.PACKET_TYPE_DATA))
    (hcnt0 : i0.packet_count = 0)
    (hdec1 : env.if_hdr_unpack_be b1 (b1.size / 4) = .ok i1)
    (hdata1 : ¬ (i1.sid = 1 ∧ i1.packet_type ≠ packet_type_t.PACKET_TYPE_DATA))
    (hcnt1 : i1.packet_count = 1)
    (hdec3 : env.if_hdr_unpack_be b3 (b3.size / 4) = .ok i3)
    (hdata3 : ¬ (i3.sid = 1 ∧ i3.packet_type ≠ packet_type_t.PACKET_TYPE_DATA))
    (hcnt3 : i3.packet_count = 3) :
    ((recv_pirate_iteration env index (some buff) s).cerr
        = s.cerr ++ emitted s.cerr (recv_pirate_iteration env index (some buff) s).cerr
      ∧ (cerr_event.O ∈ emitted s.cerr (recv_pirate_iteration env index (some buff) s).cerr
          ↔ info.packet_count ≠ s.next_packet_seq)
      ∧ count_O (emitted s.cerr (recv_pirate_iteration env index (some buff) s).cerr)
          = (if info.packet_count ≠ s.next_packet_seq then 1 else 0)
      ∧ (recv_pirate_iteration env index (some buff) s).next_packet_seq
          = (info.packet_count + 1) % 16)
    ∧ (count_O (emitted cerr (recv_pirate_loop env index
          [loop_event.recv (some b0), loop_event.recv (some b1)] io cerr).cerr) = 0
      ∧ count_O (emitted cerr (recv_pirate_loop env index
          [loop_event.recv (some b0), loop_event.recv (some b1), loop_event.recv (some b3)]
          io cerr).cerr) = 1
      ∧ (recv_pirate_loop env index
          [loop_event.recv (some b0), loop_event.recv (some b1), loop_event.recv (some b3)]
          io cerr).next_packet_seq = 4) := by
  constructor
  · rw [recv_pirate_iteration_data env index buff s info hdec hdata]
    simp only [List.append_assoc, emitted_append]
    refine ⟨trivial, ?_, ?_, trivial⟩
    · by_cases hc : info.packet_count ≠ s.next_packet_seq <;>
        by_cases hts : info.has_tsi ∧ info.has_tsf <;> simp [hc, hts]
    · by_cases hc : info.packet_count ≠ s.next_packet_seq <;>
        by_cases hts : info.has_tsi ∧ info.has_tsf <;> simp [hc, hts, count_O]
  · simp only [recv_pirate_loop, recv_pirate_while]
    rw [recv_pirate_iteration_data env index b0 _ i0 hdec0 hdata0,
      recv_pirate_iteration_data env index b1 _ i1 hdec1 hdata1]
    refine ⟨?_, ?_, ?_⟩
    · simp only [hcnt0, hcnt1, List.append_assoc, emitted_append]
      by_cases h0 : i0.has_tsi ∧ i0.has_tsf <;>
        by_cases h1 : i1.has_tsi ∧ i1.has_tsf <;> simp [h0, h1, count_O]
    · rw [recv_pirate_iteration_data env index b3 _ i3 hdec3 hdata3]
      simp only [hcnt0, hcnt1, hcnt3, List.append_assoc, emitted_append]
      by_cases h0 : i0.has_tsi ∧ i0.has_tsf <;>
        by_cases h1 : i1.has_tsi ∧ i1.has_tsf <;>
          by_cases h3 : i3.has_tsi ∧ i3.has_tsf <;> simp [h0, h1, h3, count_O]
    · rw [recv_pirate_iteration_data env index b3 _ i3 hdec3 hdata3]
      simp only [hcnt3]

/-- Witness of C2 on the toy decoder: data frames with the counts 0, 1, 3,
and a fourth frame with count 9 met while 0 is expected. -/
theorem sequence_gap_signal_witness :
    (sample_env.if_hdr_unpack_be (sample_data_frame 4 9 0) ((sample_data_frame 4 9 0).size / 4)
        = .ok (sample_data_info 9 0)
      ∧ sample_env.if_hdr_unpack_be (sample_data_frame 1 0 0) ((sample_data_frame 1 0 0).size / 4)
        = .ok (sample_data_info 0 0)
      ∧ sample_env.if_hdr_unpack_be (sample_data_frame 2 1 1) ((sample_data_frame 2 1 1).size / 4)
        = .ok (sample_data_info 1 1)
      ∧ sample_env.if_hdr_unpack_be (sample_data_frame 3 3 2) ((sample_data_frame 3 3 2).size / 4)
        = .ok (sample_data_info 3 2))
    ∧ (recv_pirate_iteration sample_env 0 (some (sample_data_frame 4 9 0))
          sample_state).next_packet_seq = 10
    ∧ (recv_pirate_loop sample_env 0
          [loop_event.recv (some (sample_data_frame 1 0 0)),
           loop_event.recv (some (sample_data_frame 2 1 1)),
           loop_event.recv (some (sample_data_frame 3 3 2))]
          (io_impl.ctor 32 1) []).next_packet_seq = 4 := by
  have h := sequence_gap_signal sample_env 0 (sample_data_frame 4 9 0) sample_state
    (sample_data_info 9 0) rfl (by decide)
    (sample_data_frame 1 0 0) (sample_data_frame 2 1 1) (sample_data_frame 3 3 2)
    (sample_data_info 0 0) (sample_data_info 1 1) (sample_data_info 3 2)
    (io_impl.ctor 32 1) []
    rfl (by decide) rfl rfl (by decide) rfl rfl (by decide) rfl
  exact ⟨⟨rfl, rfl, rfl, rfl⟩, h.1.2.2.2, h.2.2.2⟩

/-- C3 (as amended): a data packet that lacks `tsi` or `tsf` does not end
the worker.  The failed assertion is caught inside the loop: after the
sequence check (an `O` on a mismatch, the expected sequence number set to
`(c + 1) mod 16`) the error line is written, nothing is pushed into the
alignment buffer or the async FIFO, and the loop goes on with the events
that follow. -/
theorem missing_timestamp_is_logged (env : pirate_env) (index : Nat)
    (buff : managed_recv_buffer) (s : pirate_state) (info : if_packet_info_t)
    (rest : List loop_event)
    (hdec : env.if_hdr_unpack_be buff (buff.size / 4) = .ok info)
    (hdata : ¬ (info.sid = 1 ∧ info.packet_type ≠ packet_type_t.PACKET_TYPE_DATA))
    (hts : info.has_tsi = false ∨ info.has_tsf = false) :
    (recv_pirate_iteration env index (some buff) s).cerr
        = s.cerr
          ++ (if info.packet_count ≠ s.next_packet_seq then [cerr_event.O] else [])
          ++ [cerr_event.error env.assert_what]
    ∧ (recv_pirate_iteration env index (some buff) s).io = s.io
    ∧ (recv_pirate_iteration env index (some buff) s).next_packet_seq
        = (info.packet_count + 1) % 16
    ∧ recv_pirate_while env index (loop_event.recv (some buff) :: rest) s
        = recv_pirate_while env index rest (recv_pirate_iteration env index (some buff) s) := by
  have hno : ¬ (info.has_tsi ∧ info.has_tsf) := by
    rintro ⟨h1, h2⟩
    rcases hts with h | h
    · rw [h] at h1; cases h1
    · rw [h] at h2; cases h2
  have hwhile : recv_pirate_while env index (loop_event.recv (some buff) :: rest) s
      = recv_pirate_while env index rest (recv_pirate_iteration env index (some buff) s) := rfl
  rw [hwhile, recv_pirate_iteration_data env index buff s info hdec hdata]
  simp only [hno, if_false]
  exact ⟨trivial, trivial, trivial, trivial⟩

/-- Witness of C3 (as amended) on the toy decoder: a data frame without
`tsf`, met first, leaves the error line and an unchanged io state. -/
theorem missing_timestamp_is_logged_witness :
    sample_env.if_hdr_unpack_be (sample_untimed_frame 1 0) ((sample_untimed_frame 1 0).size / 4)
        = .ok (sample_untimed_info 0)
    ∧ (sample_untimed_info 0).has_tsf = false
    ∧ (recv_pirate_iteration sample_env 0 (some (sample_untimed_frame 1 0)) sample_state).cerr
        = [cerr_event.error sample_env.assert_what]
    ∧ (recv_pirate_iteration sample_env 0 (some (sample_untimed_frame 1 0)) sample_state).io
        = sample_state.io := by
  have h := missing_timestamp_is_logged sample_env 0 (sample_untimed_frame 1 0) sample_state
    (sample_untimed_info 0) [] rfl (by decide) (Or.inr rfl)
  exact ⟨rfl, rfl, h.1, h.2.1⟩

/-- C3 (as stated) fails: on the toy decoder the worker meets a data frame
without `tsf` and then a well-formed data frame.  The loop does not stop at
the first one: its result differs from the state right after that frame,
and the second frame sits in the alignment buffer. -/
theorem missing_timestamp_not_fatal :
    sample_env.if_hdr_unpack_be (sample_untimed_frame 1 0) ((sample_untimed_frame 1 0).size / 4)
        = .ok (sample_untimed_info 0)
    ∧ (sample_untimed_info 0).has_tsf = false
    ∧ (recv_pirate_loop sample_env 0
          [loop_event.recv (some (sample_untimed_frame 1 0)),
           loop_event.recv (some (sample_data_frame 2 1 6))]
          (io_impl.ctor 32 1) []).io.recv_pirate_booty.streams
        = [[(sample_data_frame 2 1 6,
             { full_secs := 6, tick_count := 0, tick_rate := 100000000 }, 0)]]
    ∧ (recv_pirate_loop sample_env 0
          [loop_event.recv (some (sample_untimed_frame 1 0)),
           loop_event.recv (some (sample_data_frame 2 1 6))]
          (io_impl.ctor 32 1) []).io.recv_pirate_booty.streams
        ≠ (recv_pirate_loop sample_env 0
          [loop_event.recv (some (sample_untimed_frame 1 0))]
          (io_impl.ctor 32 1) []).io.recv_pirate_booty.streams := by
  have hstreams : (recv_pirate_loop sample_env 0
          [loop_event.recv (some (sample_untimed_frame 1 0)),
           loop_event.recv (some (sample_data_frame 2 1 6))]
          (io_impl.ctor 32 1) []).io.recv_pirate_booty.streams
        = [[(sample_data_frame 2 1 6,
             { full_secs := 6, tick_count := 0, tick_rate := 100000000 }, 0)]] := by
    simp only [recv_pirate_loop, recv_pirate_while]
    rw [recv_pirate_iteration_data sample_env 0 (sample_untimed_frame 1 0) _
      (sample_untimed_info 0) rfl (by decide)]
    rw [recv_pirate_iteration_data sample_env 0 (sample_data_frame 2 1 6) _
      (sample_data_info 1 6) rfl (by decide)]
    rfl
  have hfirst : (recv_pirate_loop sample_env 0
          [loop_event.recv (some (sample_untimed_frame 1 0))]
          (io_impl.ctor 32 1) []).io.recv_pirate_booty.streams = [[]] := by
    simp only [recv_pirate_loop, recv_pirate_while]
    rw [recv_pirate_iteration_data sample_env 0 (sample_untimed_frame 1 0) _
      (sample_untimed_info 0) rfl (by decide)]
    rfl
  refine ⟨rfl, rfl, hstreams, ?_⟩
  rw [hstreams, hfirst]
  simp

/-! ## The async message FIFO -/

theorem push_capacity {α : Type} (b : bounded_buffer α) (x : α) :
    (b.push_with_pop_on_full x).capacity = b.capacity := by
  unfold bounded_buffer.push_with_pop_on_full
  split <;> rfl

theorem foldl_push_capacity {α : Type} (msgs : List α) (b : bounded_buffer α) :
    (msgs.foldl bounded_buffer.push_with_pop_on_full b).capacity = b.capacity := by
  induction msgs generalizing b with
  | nil => rfl
  | cons x xs ih => rw [List.foldl_cons, ih, push_capacity]

/-- One push on a buffer of positive depth keeps the newest `capacity`
elements. -/
theorem push_elems {α : Type} (b : bounded_buffer α) (x : α)
    (hcap : 0 < b.capacity) (hlen : b.elems.length ≤ b.capacity) :
    (b.push_with_pop_on_full x).elems
      = (b.elems ++ [x]).drop (b.elems.length + 1 - b.capacity) := by
  unfold bounded_buffer.push_with_pop_on_full
  split
  · rename_i h
    have heq : b.elems.length = b.capacity := le_antisymm hlen h
    cases hb : b.elems with
    | nil =>
      have : b.capacity = 0 := by rw [← heq, hb]; rfl
      omega
    | cons e t =>
      have : t.length + 1 = b.capacity := by rw [← heq, hb]; rfl
      simp [hb, ← this]
  · rename_i h
    have : b.elems.length + 1 - b.capacity = 0 := by omega
    simp [this]

/-- Any run of pushes keeps the newest `capacity` elements, in push order. -/
theorem foldl_push_elems {α : Type} (msgs : List α) (b : bounded_buffer α)
    (hcap : 0 < b.capacity) (hlen : b.elems.length ≤ b.capacity) :
    (msgs.foldl bounded_buffer.push_with_pop_on_full b).elems
      = (b.elems ++ msgs).drop ((b.elems ++ msgs).length - b.capacity) := by
  induction msgs using List.reverseRecOn with
  | nil =>
    have : b.elems.length - b.capacity = 0 := by omega
    simp [this]
  | append_singleton ms x ih =>
    rw [List.foldl_append, List.foldl_cons, List.foldl_nil]
    have hlen2 : (List.foldl bounded_buffer.push_with_pop_on_full b ms).elems.length
        ≤ (List.foldl bounded_buffer.push_with_pop_on_full b ms).capacity := by
      rw [ih, foldl_push_capacity, List.length_drop]
      omega
    rw [push_elems _ _ (by rw [foldl_push_capacity]; exact hcap) hlen2, foldl_push_capacity, ih,
      List.length_drop]
    rw [← List.append_assoc]
    rw [← List.drop_append_of_le_length (by omega), List.drop_drop]
    congr 1
    simp only [List.length_append, List.length_singleton]
    omega

/-- As many calls of `recv_async_msg` as the FIFO holds messages return
them oldest first and leave the FIFO empty. -/
theorem recv_async_msgs_drains (timeout : ℚ) (l : List async_metadata_t) (io : io_impl)
    (hl : io.async_msg_fifo.elems = l) :
    recv_async_msgs timeout l.length io
      = (l, { io with async_msg_fifo := { io.async_msg_fifo with elems := [] } }) := by
  induction l generalizing io with
  | nil =>
    simp only [List.length_nil, recv_async_msgs]
    rw [← hl]
  | cons m ms ih =>
    have hstep : recv_async_msg io timeout
        = (some m, { io with async_msg_fifo := { io.async_msg_fifo with elems := ms } }) := by
      simp only [recv_async_msg, bounded_buffer.pop_with_timed_wait, hl]
    simp only [List.length_cons, recv_async_msgs, hstep]
    rw [ih _ rfl]

/-- An iteration changes the async FIFO by the push of the async message of
the frame, when the frame has one. -/
theorem recv_pirate_iteration_fifo (env : pirate_env) (index : Nat)
    (b : Option managed_recv_buffer) (s : pirate_state) :
    (recv_pirate_iteration env index b s).io.async_msg_fifo
      = match async_message_of env index b with
        | none => s.io.async_msg_fifo
        | some m => s.io.async_msg_fifo.push_with_pop_on_full m := by
  cases b with
  | none => rfl
  | some buff =>
    cases hdec : env.if_hdr_unpack_be buff (buff.size / 4) with
    | error what =>
      simp only [recv_pirate_iteration, recv_pirate_try, async_message_of, hdec]
    | ok info =>
      by_cases hasync : info.sid = 1 ∧ info.packet_type ≠ packet_type_t.PACKET_TYPE_DATA
      · have h := recv_pirate_try_async env index buff s info hdec hasync.1 hasync.2
        simp only [recv_pirate_iteration, async_message_of, hdec, h, if_pos hasync]
      · rw [recv_pirate_iteration_data env index buff s info hdec hasync]
        simp only [async_message_of, hdec, if_neg hasync]
        by_cases hts : info.has_tsi ∧ info.has_tsf
        · simp only [hts, and_self, if_true]
        · simp only [hts, if_false]

/-- Over a run of transport results the loop pushes the async messages of
the frames, in arrival order, and does nothing else to the FIFO. -/
theorem recv_pirate_while_fifo (env : pirate_env) (index : Nat)
    (frames : List (Option managed_recv_buffer)) (s : pirate_state) :
    (recv_pirate_while env index (frames.map loop_event.recv) s).io.async_msg_fifo
      = (frames.filterMap (async_message_of env index)).foldl
          bounded_buffer.push_with_pop_on_full s.io.async_msg_fifo := by
  induction frames generalizing s with
  | nil => rfl
  | cons b bs ih =>
    simp only [List.map_cons, recv_pirate_while]
    rw [ih, recv_pirate_iteration_fifo]
    cases hm : async_message_of env index b with
    | none => simp only [List.filterMap_cons, hm]
    | some m => simp only [List.filterMap_cons, hm, List.foldl_cons]

/-- C4: the async FIFO of a fresh `io_impl` is 100 messages deep and empty.
After any run of pushes with no pop in between it holds exactly the last
`min n 100` of the `n` messages pushed, in push order; for `n = 150` these
are the messages after the first 50.  That many calls of `recv_async_msg`
return them in that order, and the next call returns nothing.  The pushes of
a scavenger loop are exactly the async messages of the frames it met. -/
theorem async_fifo_backpressure (num_frames width : Nat) (msgs : List async_metadata_t)
    (timeout : ℚ) (env : pirate_env) (index : Nat)
    (frames : List (Option managed_recv_buffer)) (cerr : List cerr_event) :
    (io_impl.ctor num_frames width).async_msg_fifo.capacity = 100
    ∧ (io_impl.ctor num_frames width).async_msg_fifo.elems = []
    ∧ (msgs.foldl bounded_buffer.push_with_pop_on_full
          (io_impl.ctor num_frames width).async_msg_fifo).elems
        = msgs.drop (msgs.length - 100)
    ∧ (msgs.foldl bounded_buffer.push_with_pop_on_full
          (io_impl.ctor num_frames width).async_msg_fifo).elems.length
        = min msgs.length 100
    ∧ (msgs.length = 150 →
        (msgs.foldl bounded_buffer.push_with_pop_on_full
          (io_impl.ctor num_frames width).async_msg_fifo).elems = msgs.drop 50)
    ∧ (recv_async_msgs timeout (min msgs.length 100)
          { io_impl.ctor num_frames width with
            async_msg_fifo := msgs.foldl bounded_buffer.push_with_pop_on_full
              (io_impl.ctor num_frames width).async_msg_fifo }).1
        = msgs.drop (msgs.length - 100)
    ∧ (recv_async_msg (recv_async_msgs timeout (min msgs.length 100)
          { io_impl.ctor num_frames width with
            async_msg_fifo := msgs.foldl bounded_buffer.push_with_pop_on_full
              (io_impl.ctor num_frames width).async_msg_fifo }).2 timeout).1 = none
    ∧ (recv_pirate_loop env index (frames.map loop_event.recv)
          (io_impl.ctor num_frames width) cerr).io.async_msg_fifo
        = (frames.filterMap (async_message_of env index)).foldl
            bounded_buffer.push_with_pop_on_full
            (io_impl.ctor num_frames width).async_msg_fifo := by
  have helems : (msgs.foldl bounded_buffer.push_with_pop_on_full
        (io_impl.ctor num_frames width).async_msg_fifo).elems
      = msgs.drop (msgs.length - 100) := by
    rw [foldl_push_elems msgs _ (by simp [io_impl.ctor, bounded_buffer.make])
      (by simp [io_impl.ctor, bounded_buffer.make])]
    rfl
  have hlen : (msgs.drop (msgs.length - 100)).length = min msgs.length 100 := by
    rw [List.length_drop]; omega
  have hdrain := recv_async_msgs_drains timeout (msgs.drop (msgs.length - 100))
    { io_impl.ctor num_frames width with
      async_msg_fifo := msgs.foldl bounded_buffer.push_with_pop_on_full
        (io_impl.ctor num_frames width).async_msg_fifo } helems
  rw [hlen] at hdrain
  refine ⟨rfl, rfl, helems, ?_, ?_, ?_, ?_, ?_⟩
  · rw [helems, hlen]
  · intro h150
    rw [helems, h150]
  · rw [hdrain]
  · rw [hdrain]
    rfl
  · exact recv_pirate_while_fifo env index frames _

/-- Witness of C4: 150 messages numbered 0 to 149 by their channel are
pushed into the FIFO of a fresh `io_impl`; it then holds the last 100. -/
theorem async_fifo_backpressure_witness :
    ((List.range 150).map sample_msg).length = 150
    ∧ (((List.range 150).map sample_msg).foldl bounded_buffer.push_with_pop_on_full
          (io_impl.ctor 32 1).async_msg_fifo).elems
      = ((List.range 150).map sample_msg).drop 50 :=
  ⟨by simp, (async_fifo_backpressure 32 1 _ 1 sample_env 0 [] []).2.2.2.2.1 (by simp)⟩

/-! ## Send frames -/

/-- The state of the loop of `get_send_buffs` after it ran from index `i` to
the end: the slots from `i` on hold what the transports returned, `good` is
conjoined with the non-null tests, and one request per transport is made. -/
theorem get_send_buffs_loop_spec (trans : List udp_zero_copy) (timeout : ℚ) (n i : Nat)
    (r : send_buffs_result) (hn : i + n = trans.length) (hb : r.buffs.length = trans.length) :
    (get_send_buffs_loop trans timeout n i r).buffs
        = r.buffs.take i ++ (trans.drop i).map (fun t => t.get_send_buff timeout)
    ∧ (get_send_buffs_loop trans timeout n i r).good
        = (r.good && ((trans.drop i).map (fun t => t.get_send_buff timeout)).all Option.isSome)
    ∧ (get_send_buffs_loop trans timeout n i r).requests
        = r.requests ++ (List.range' i n).map (fun j => (j, timeout)) := by
  induction n generalizing i r with
  | zero =>
    have hdrop : trans.drop i = [] := List.drop_eq_nil_of_le (by omega)
    have htake : r.buffs.take i = r.buffs := List.take_of_length_le (by omega)
    simp [get_send_buffs_loop, hdrop, htake]
  | succ n ih =>
    have hlt : i < trans.length := by omega
    have hget : trans[i]? = some trans[i] := List.getElem?_eq_getElem hlt
    have hdrop : trans.drop i = trans[i] :: trans.drop (i + 1) := List.drop_eq_getElem_cons hlt
    simp only [get_send_buffs_loop, hget]
    obtain ⟨h1, h2, h3⟩ := ih (i + 1)
      { buffs := r.buffs.set i (trans[i].get_send_buff timeout)
        good := r.good && (trans[i].get_send_buff timeout).isSome
        requests := r.requests ++ [(i, timeout)] }
      (by omega) (by simp [hb])
    refine ⟨?_, ?_, ?_⟩
    · rw [h1, hdrop]
      simp only [List.map_cons]
      rw [List.take_succ, List.set_take, List.getElem?_set_self (by omega),
        List.set_eq_of_length_le (by simp)]
      simp
    · rw [h2, hdrop]
      simp only [List.map_cons, List.all_cons, Bool.and_assoc]
    · rw [h3, List.range'_succ]
      simp

/-- C5: with as many transports as buffer slots, `get_send_buffs` returns
normally after requesting one send frame from each transport, in order and
with the given timeout; the slots hold what the transports returned; the
result is `true` if and only if no slot is null, and `false` as soon as one
transport returned null. -/
theorem send_frame_acquisition (assert_what : String) (trans : List udp_zero_copy)
    (buffs : List (Option managed_send_buffer)) (timeout : ℚ)
    (hsize : trans.length = buffs.length) :
    ∃ r, get_send_buffs assert_what trans buffs timeout = .ok r
      ∧ r.requests = (List.range trans.length).map (fun i => (i, timeout))
      ∧ r.buffs = trans.map (fun t => t.get_send_buff timeout)
      ∧ (r.good = true ↔ ∀ b ∈ r.buffs, b ≠ none)
      ∧ ((∃ t ∈ trans, t.get_send_buff timeout = none) → r.good = false) := by
  obtain ⟨h1, h2, h3⟩ := get_send_buffs_loop_spec trans timeout buffs.length 0
    { buffs := buffs, good := true, requests := [] } (by omega) hsize.symm
  have hgood : (get_send_buffs_loop trans timeout buffs.length 0
      { buffs := buffs, good := true, requests := [] }).good = true
      ↔ ∀ b ∈ trans.map (fun t => t.get_send_buff timeout), b ≠ none := by
    rw [h2]
    simp only [List.drop_zero, Bool.true_and, List.all_eq_true]
    constructor
    · intro h b hb
      have := h b hb
      cases b with
      | none => cases this
      | some x => simp
    · intro h b hb
      cases b with
      | none => exact absurd rfl (h none hb)
      | some x => rfl
  refine ⟨_, if_pos hsize, ?_, ?_, ?_, ?_⟩
  · rw [h3, List.range_eq_range', hsize]
    simp
  · rw [h1]
    simp
  · rw [h1]
    simpa using hgood
  · rintro ⟨t, ht, hnull⟩
    cases hg : (get_send_buffs_loop trans timeout buffs.length 0
      { buffs := buffs, good := true, requests := [] }).good with
    | false => rfl
    | true =>
      exfalso
      exact hgood.mp hg none (List.mem_map.mpr ⟨t, ht, hnull⟩) rfl

/-- Witness of C5: of two transports the second hands out no frame; both are
asked, and the result is `false`. -/
theorem send_frame_acquisition_witness :
    [ready_transport 1, plain_transport 1472 1472].length
        = ([none, none] : List (Option managed_send_buffer)).length
    ∧ ∃ r, get_send_buffs "size mismatch" [ready_transport 1, plain_transport 1472 1472]
          [none, none] (1 / 10) = .ok r
        ∧ r.requests = [(0, 1 / 10), (1, 1 / 10)]
        ∧ r.buffs = [some { id := 1 }, none]
        ∧ r.good = false := by
  obtain ⟨r, h1, h2, h3, _, h5⟩ := send_frame_acquisition "size mismatch"
    [ready_transport 1, plain_transport 1472 1472] [none, none] (1 / 10) rfl
  refine ⟨rfl, r, h1, ?_, ?_, ?_⟩
  · rw [h2]; rfl
  · rw [h3]; rfl
  · exact h5 ⟨plain_transport 1472 1472, by simp, rfl⟩

/-! ## Samples per packet -/

theorem size_t_sub_of_le (a b : Nat) (hba : b ≤ a) (ha : a < size_t_mod) :
    size_t_sub a b = a - b := by
  unfold size_t_sub
  have hb : b < size_t_mod := lt_of_le_of_lt hba ha
  rw [Nat.mod_eq_of_lt ha, Nat.mod_eq_of_lt hb]
  have : a + (size_t_mod - b) = (a - b) + size_t_mod := by omega
  rw [this, Nat.add_mod_right, Nat.mod_eq_of_lt (by omega)]

theorem recv_hdr_size_eq (c : vrt_consts)
    (hcid : c.sizeof_cid ≤ c.max_if_hdr_words32 * 4 + c.sizeof_tlr)
    (hhdr : c.max_if_hdr_words32 * 4 + c.sizeof_tlr < size_t_mod) :
    recv_hdr_size c = c.max_if_hdr_words32 * 4 + c.sizeof_tlr - c.sizeof_cid := by
  unfold recv_hdr_size size_t_add size_t_mul
  have h1 : c.max_if_hdr_words32 * 4 % size_t_mod = c.max_if_hdr_words32 * 4 :=
    Nat.mod_eq_of_lt (by omega)
  rw [h1, Nat.zero_add, h1, Nat.mod_eq_of_lt hhdr]
  exact size_t_sub_of_le _ _ hcid hhdr

theorem send_hdr_size_eq (c : vrt_consts)
    (hcid : c.sizeof_cid ≤ c.max_if_hdr_words32 * 4)
    (hhdr : c.max_if_hdr_words32 * 4 < size_t_mod) :
    send_hdr_size c = c.max_if_hdr_words32 * 4 - c.sizeof_cid := by
  unfold send_hdr_size size_t_add size_t_mul
  have h1 : c.max_if_hdr_words32 * 4 % size_t_mod = c.max_if_hdr_words32 * 4 :=
    Nat.mod_eq_of_lt hhdr
  rw [h1, Nat.zero_add, h1]
  exact size_t_sub_of_le _ _ hcid hhdr

/-- Floor division of integers on natural numbers is division of natural
numbers. -/
theorem fdiv_natCast (a b : Nat) : Int.fdiv (a : Int) (b : Int) = ((a / b : Nat) : Int) := by
  rw [Int.fdiv_eq_ediv _ (Int.ofNat_nonneg b)]
  norm_cast

/-- C6 (as amended): when the frame holds the header (`recv_frame_size` is
at least `MAX_HDR_WORDS*4 + TLR_SIZE - CID_SIZE`, all sizes being `size_t`
values with the class id no larger than header plus trailer) and the RX
sample size is not zero, `get_max_recv_samps_per_packet` returns
`floor((recv_frame_size - (MAX_HDR_WORDS*4 + TLR_SIZE - CID_SIZE)) / otw_sample_size)`. -/
theorem max_recv_samps_per_packet (c : vrt_consts) (dev : usrp2_impl) (t : udp_zero_copy)
    (rest : List udp_zero_copy)
    (hfront : dev._data_transports = t :: rest)
    (hcid : c.sizeof_cid ≤ c.max_if_hdr_words32 * 4 + c.sizeof_tlr)
    (hhdr : c.max_if_hdr_words32 * 4 + c.sizeof_tlr < size_t_mod)
    (hfit : c.max_if_hdr_words32 * 4 + c.sizeof_tlr - c.sizeof_cid ≤ t.recv_frame_size)
    (hfs : t.recv_frame_size < size_t_mod)
    (hs : dev._rx_otw_type.sample_size ≠ 0) :
    get_max_recv_samps_per_packet c dev
        = some ((t.recv_frame_size
            - (c.max_if_hdr_words32 * 4 + c.sizeof_tlr - c.sizeof_cid))
            / dev._rx_otw_type.sample_size)
    ∧ (((t.recv_frame_size - (c.max_if_hdr_words32 * 4 + c.sizeof_tlr - c.sizeof_cid))
          / dev._rx_otw_type.sample_size : Nat) : Int)
        = spec_max_samps_per_packet c t.recv_frame_size dev._rx_otw_type.sample_size := by
  constructor
  · unfold get_max_recv_samps_per_packet
    rw [hfront]
    simp only [List.head?_cons, if_neg hs]
    rw [recv_hdr_size_eq c hcid hhdr, size_t_sub_of_le _ _ hfit hfs]
  · unfold spec_max_samps_per_packet
    rw [← fdiv_natCast]
    congr 1
    rw [Nat.cast_sub hfit, Nat.cast_sub hcid]
    push_cast
    ring

/-- Witness of C6 (as amended): a 1472-byte frame, the header constants of
the library and 4-byte samples give 362 samples per packet. -/
theorem max_recv_samps_per_packet_witness :
    (uhd_vrt_consts.max_if_hdr_words32 * 4 + uhd_vrt_consts.sizeof_tlr
        - uhd_vrt_consts.sizeof_cid ≤ (plain_transport 1472 1472).recv_frame_size)
    ∧ get_max_recv_samps_per_packet uhd_vrt_consts (plain_device 1472) = some 362 := by
  have h := max_recv_samps_per_packet uhd_vrt_consts (plain_device 1472)
    (plain_transport 1472 1472) [] rfl (by decide) (by decide) (by decide) (by decide)
    (by decide)
  exact ⟨by decide, h.1⟩

/-- C6 (as stated) fails for a frame smaller than the header: with the
header constants of the library, a frame size of 0 and 4-byte samples the
`size_t` subtraction wraps and the function returns 4611686018427387898,
while the formula gives `floor(-24 / 4) = -6`. -/
theorem max_recv_samps_small_frame :
    get_max_recv_samps_per_packet uhd_vrt_consts (plain_device 0)
        = some 4611686018427387898
    ∧ spec_max_samps_per_packet uhd_vrt_consts 0 4 = -6
    ∧ ((4611686018427387898 : Nat) : Int) ≠ spec_max_samps_per_packet uhd_vrt_consts 0 4 := by
  refine ⟨by decide, by decide, by decide⟩

/-- C7 (as amended): the send header has no trailer term.  When the frame
holds it (`send_frame_size` is at least `MAX_HDR_WORDS*4 - CID_SIZE`, all
sizes being `size_t` values with the class id no larger than the header) and
the TX sample size is not zero, `get_max_send_samps_per_packet` returns
`floor((send_frame_size - (MAX_HDR_WORDS*4 - CID_SIZE)) / otw_sample_size)`. -/
theorem max_send_samps_per_packet (c : vrt_consts) (dev : usrp2_impl) (t : udp_zero_copy)
    (rest : List udp_zero_copy)
    (hfront : dev._data_transports = t :: rest)
    (hcid : c.sizeof_cid ≤ c.max_if_hdr_words32 * 4)
    (hhdr : c.max_if_hdr_words32 * 4 < size_t_mod)
    (hfit : c.max_if_hdr_words32 * 4 - c.sizeof_cid ≤ t.send_frame_size)
    (hfs : t.send_frame_size < size_t_mod)
    (hs : dev._tx_otw_type.sample_size ≠ 0) :
    get_max_send_samps_per_packet c dev
        = some ((t.send_frame_size - (c.max_if_hdr_words32 * 4 - c.sizeof_cid))
            / dev._tx_otw_type.sample_size)
    ∧ (((t.send_frame_size - (c.max_if_hdr_words32 * 4 - c.sizeof_cid))
          / dev._tx_otw_type.sample_size : Nat) : Int)
        = send_max_samps_formula c t.send_frame_size dev._tx_otw_type.sample_size := by
  constructor
  · unfold get_max_send_samps_per_packet
    rw [hfront]
    simp only [List.head?_cons, if_neg hs]
    rw [send_hdr_size_eq c hcid hhdr, size_t_sub_of_le _ _ hfit hfs]
  · unfold send_max_samps_formula
    rw [← fdiv_natCast]
    congr 1
    rw [Nat.cast_sub hfit, Nat.cast_sub hcid]
    push_cast
    ring

/-- Witness of C7 (as amended): a 1472-byte frame, the header constants of
the library and 4-byte samples give 363 samples per packet. -/
theorem max_send_samps_per_packet_witness :
    (uhd_vrt_consts.max_if_hdr_words32 * 4 - uhd_vrt_consts.sizeof_cid
        ≤ (plain_transport 1472 1472).send_frame_size)
    ∧ get_max_send_samps_per_packet uhd_vrt_consts (plain_device 1472) = some 363 := by
  have h := max_send_samps_per_packet uhd_vrt_consts (plain_device 1472)
    (plain_transport 1472 1472) [] rfl (by decide) (by decide) (by decide) (by decide)
    (by decide)
  exact ⟨by decide, h.1⟩

/-- C7 (as stated) fails: with the header constants of the library and
4-byte samples, a 1472-byte send frame gives 363 samples where the section
4.4 formula, which counts the trailer, gives 362; and for a frame size of 0
the `size_t` subtraction wraps and the function returns 4611686018427387899
where the formula gives -6. -/
theorem max_send_samps_not_section_4_4 :
    get_max_send_samps_per_packet uhd_vrt_consts (plain_device 1472) = some 363
    ∧ spec_max_samps_per_packet uhd_vrt_consts 1472 4 = 362
    ∧ get_max_send_samps_per_packet uhd_vrt_consts (plain_device 0)
        = some 4611686018427387899
    ∧ spec_max_samps_per_packet uhd_vrt_consts 0 4 = -6 := by
  refine ⟨by decide, by decide, by decide, by decide⟩

/-! ## Motherboard bring-up and teardown -/

theorem poke32_of_live (i : usrp2_iface) (addr data : Nat) (h : i.fails i.transactions = false) :
    i.poke32 addr data
      = ({ i with attempted := i.attempted ++ [(addr, data)]
                  written := i.written ++ [(addr, data)]
                  transactions := i.transactions + 1 }, .ok ()) := by
  unfold usrp2_iface.poke32
  simp [h]

/-- The conversion to `size_t` of a double within the range of `size_t` is
its floor. -/
theorem double_to_size_t_of_range (q : ℚ) (h0 : 0 ≤ q) (hlt : q < (size_t_mod : ℚ)) :
    double_to_size_t q = some (Int.toNat ⌊q⌋) := by
  unfold double_to_size_t
  rw [if_pos ⟨by linarith, hlt⟩]

/-- A block of the flow-control step whose quotient is finite and within the
range of `size_t`, on a working control socket: one write of the narrowed
value. -/
theorem flow_control_update_ok (k : usrp2_consts) (reg : Nat) (q : ℚ) (iface : usrp2_iface)
    (hio : iface.fails iface.transactions = false)
    (h0 : 0 ≤ q) (hlt : q < (size_t_mod : ℚ)) :
    flow_control_update k reg (some q) iface
      = ({ iface with
           attempted := iface.attempted
             ++ [(reg, narrow_uint32 (k.U2_FLAG_TX_CTRL_UP_ENB ||| Int.toNat ⌊q⌋))]
           written := iface.written
             ++ [(reg, narrow_uint32 (k.U2_FLAG_TX_CTRL_UP_ENB ||| Int.toNat ⌊q⌋))]
           transactions := iface.transactions + 1 }, .ok ()) := by
  unfold flow_control_update
  rw [Option.some_bind, double_to_size_t_of_range q h0 hlt]
  simp only
  rw [poke32_of_live _ _ _ hio]

/-- A block of the flow-control step whose quotient is not a finite number:
the conversion is undefined and nothing is written. -/
theorem flow_control_update_undefined (k : usrp2_consts) (reg : Nat) (iface : usrp2_iface) :
    flow_control_update k reg none iface = (iface, .error cpp_fault.conversion_out_of_range) :=
  rfl

/-- The flow-control step once the two options are read. -/
theorem ctor_flow_control_eq (k : usrp2_consts) (fp : double_arith)
    (lexical_cast : String → Option ℚ) (device_addr : device_addr_t)
    (master_clock_rate : ℚ) (send_frame_size : Nat) (iface : usrp2_iface)
    (ups_per_sec ups_per_fifo : ℚ)
    (hsec : device_addr.cast_double lexical_cast "ups_per_sec" 20 = .ok ups_per_sec)
    (hfifo : device_addr.cast_double lexical_cast "ups_per_fifo" 8 = .ok ups_per_fifo) :
    ctor_flow_control k fp lexical_cast device_addr master_clock_rate send_frame_size iface
      = match (if ups_per_sec > 0 then
                flow_control_update k k.U2_REG_TX_CTRL_CYCLES_PER_UP
                  (fp.div master_clock_rate ups_per_sec) iface
               else (iface, .ok ())) with
        | (iface1, .error f) => (iface1, .error f)
        | (iface1, .ok _) =>
          if ups_per_fifo > 0 then
            flow_control_update k k.U2_REG_TX_CTRL_PACKETS_PER_UP
              ((fp.div (fp.of_size_t k.sram_bytes) ups_per_fifo).bind
                (fun q => fp.div q (fp.of_size_t send_frame_size))) iface1
          else (iface1, .ok ()) := by
  unfold ctor_flow_control
  rw [hsec]
  simp only [hfifo]

/-- C8 (as amended): when the two options parse, the control socket works,
and each quotient that is computed is a finite double within the range of
`size_t`, the flow-control step of the constructor returns normally, and the
`poke32` calls it made are: the cycles-per-update register exactly when
`ups_per_sec > 0`, with the low 32 bits of
`ENABLE_FLAG | trunc(master_clock_rate / ups_per_sec)`, then the
packets-per-update register exactly when `ups_per_fifo > 0`, with the low 32
bits of `ENABLE_FLAG | trunc(sram_bytes / ups_per_fifo / send_frame_size)`;
the low 32 bits are the value itself when it is below `2^32`; an absent
option takes the default 20, respectively 8; with both options equal to 0
nothing is written. -/
theorem flow_control_programming (k : usrp2_consts) (fp : double_arith)
    (lexical_cast : String → Option ℚ)
    (device_addr : device_addr_t) (master_clock_rate : ℚ) (send_frame_size : Nat)
    (iface : usrp2_iface) (ups_per_sec ups_per_fifo q1 q2 : ℚ)
    (hio : ∀ n, iface.fails n = false)
    (hsec : device_addr.cast_double lexical_cast "ups_per_sec" 20 = .ok ups_per_sec)
    (hfifo : device_addr.cast_double lexical_cast "ups_per_fifo" 8 = .ok ups_per_fifo)
    (hq1 : ups_per_sec > 0 →
      fp.div master_clock_rate ups_per_sec = some q1 ∧ 0 ≤ q1 ∧ q1 < (size_t_mod : ℚ))
    (hq2 : ups_per_fifo > 0 →
      (fp.div (fp.of_size_t k.sram_bytes) ups_per_fifo).bind
          (fun q => fp.div q (fp.of_size_t send_frame_size)) = some q2
        ∧ 0 ≤ q2 ∧ q2 < (size_t_mod : ℚ)) :
    (∃ iface1,
      ctor_flow_control k fp lexical_cast device_addr master_clock_rate send_frame_size iface
        = (iface1, .ok ())
      ∧ iface1.written = iface.written
          ++ (if ups_per_sec > 0 then
                [(k.U2_REG_TX_CTRL_CYCLES_PER_UP,
                  (k.U2_FLAG_TX_CTRL_UP_ENB ||| Int.toNat ⌊q1⌋) % 4294967296)]
              else [])
          ++ (if ups_per_fifo > 0 then
                [(k.U2_REG_TX_CTRL_PACKETS_PER_UP,
                  (k.U2_FLAG_TX_CTRL_UP_ENB ||| Int.toNat ⌊q2⌋) % 4294967296)]
              else [])
      ∧ iface1.attempted = iface.attempted ++ iface1.written.drop iface.written.length
      ∧ (ups_per_sec = 0 → ups_per_fifo = 0 → iface1.written = iface.written))
    ∧ (∀ n : Nat, k.U2_FLAG_TX_CTRL_UP_ENB ||| n < 4294967296 →
        (k.U2_FLAG_TX_CTRL_UP_ENB ||| n) % 4294967296 = k.U2_FLAG_TX_CTRL_UP_ENB ||| n)
    ∧ (device_addr.lookup "ups_per_sec" = none → ups_per_sec = 20)
    ∧ (device_addr.lookup "ups_per_fifo" = none → ups_per_fifo = 8) := by
  refine ⟨?_, fun n hn => Nat.mod_eq_of_lt hn, ?_, ?_⟩
  · rw [ctor_flow_control_eq k fp lexical_cast device_addr master_clock_rate send_frame_size
      iface ups_per_sec ups_per_fifo hsec hfifo]
    by_cases h1 : ups_per_sec > 0
    · obtain ⟨hd1, h10, h1lt⟩ := hq1 h1
      rw [if_pos h1, hd1, flow_control_update_ok k _ q1 iface (hio _) h10 h1lt]
      simp only
      by_cases h2 : ups_per_fifo > 0
      · obtain ⟨hd2, h20, h2lt⟩ := hq2 h2
        rw [if_pos h2, hd2, flow_control_update_ok]
        · refine ⟨_, rfl, ?_, ?_, ?_⟩
          · simp [h1, h2, narrow_uint32]
          · simp
          · intro h; exact absurd h (ne_of_gt h1)
        · exact hio _
        · exact h20
        · exact h2lt
      · rw [if_neg h2]
        refine ⟨_, rfl, ?_, ?_, ?_⟩
        · simp [h1, h2, narrow_uint32]
        · simp
        · intro h; exact absurd h (ne_of_gt h1)
    · rw [if_neg h1]
      simp only
      by_cases h2 : ups_per_fifo > 0
      · obtain ⟨hd2, h20, h2lt⟩ := hq2 h2
        rw [if_pos h2, hd2, flow_control_update_ok k _ q2 iface (hio _) h20 h2lt]
        refine ⟨_, rfl, ?_, ?_, ?_⟩
        · simp [h1, h2, narrow_uint32]
        · simp
        · intro _ h; exact absurd h (ne_of_gt h2)
      · rw [if_neg h2]
        refine ⟨_, rfl, ?_, ?_, ?_⟩
        · simp [h1, h2]
        · simp
        · intro _ _; rfl
  · intro hnone
    unfold device_addr_t.cast_double at hsec
    rw [hnone] at hsec
    cases hsec
    rfl
  · intro hnone
    unfold device_addr_t.cast_double at hfifo
    rw [hnone] at hfifo
    cases hfifo
    rfl

/-- Witness of C8 (as amended): with no option given, a 100 MHz master
clock, 1472-byte send frames and one MiB of SRAM, both registers are
written, with the flag and 5000000 cycles, respectively 89 packets. -/
theorem flow_control_programming_witness :
    (∀ n, live_iface.fails n = false)
    ∧ device_addr_t.cast_double sample_lexical_cast [] "ups_per_sec" 20 = .ok 20
    ∧ device_addr_t.cast_double sample_lexical_cast [] "ups_per_fifo" 8 = .ok 8
    ∧ exact_double_arith.div 100000000 20 = some 5000000
    ∧ ∃ iface1,
        ctor_flow_control sample_consts exact_double_arith sample_lexical_cast [] 100000000 1472
            live_iface = (iface1, .ok ())
        ∧ iface1.written = [(1, 2152483648), (2, 2147483737)] := by
  have hd1 : exact_double_arith.div 100000000 20 = some 5000000 := by
    simp only [exact_double_arith]
    norm_num
  have hd2 : (exact_double_arith.div (exact_double_arith.of_size_t sample_consts.sram_bytes) 8).bind
      (fun q => exact_double_arith.div q (exact_double_arith.of_size_t 1472))
      = some (2048 / 23) := by
    simp only [exact_double_arith, sample_consts]
    norm_num
  obtain ⟨⟨iface1, h1, h2, _⟩, _⟩ := flow_control_programming sample_consts exact_double_arith
    sample_lexical_cast [] 100000000 1472 live_iface 20 8 5000000 (2048 / 23)
    (fun _ => rfl) rfl rfl
    (fun _ => ⟨hd1, by norm_num, by norm_num [size_t_mod]⟩)
    (fun _ => ⟨hd2, by norm_num, by norm_num [size_t_mod]⟩)
  refine ⟨fun _ => rfl, rfl, rfl, hd1, iface1, h1, ?_⟩
  rw [h2]
  have f1 : ⌊(5000000 : ℚ)⌋ = 5000000 := by norm_num
  have f2 : ⌊(2048 / 23 : ℚ)⌋ = 89 := by norm_num [Int.floor_eq_iff]
  rw [f1, f2]
  norm_num [live_iface, sample_consts]
  exact ⟨by decide, by decide⟩

/-- C8 (as stated) fails.  With `ups_per_sec = 0.0009765625` (1/1024, a
positive value) and a 100 MHz master clock the quotient is 102400000000 and
`ENABLE_FLAG | 102400000000` is 102400000000, but the register receives its
low 32 bits, 3615752192.  With a send frame size of 0 and the default
`ups_per_fifo = 8 > 0` the quotient is not a finite number, its conversion
to `size_t` is undefined, and the packets-per-update register is not
written. -/
theorem flow_control_value_is_narrowed :
    device_addr_t.cast_double sample_lexical_cast_fraction
        [("ups_per_sec", "0.0009765625")] "ups_per_sec" 20 = .ok (1 / 1024)
    ∧ exact_double_arith.div 100000000 (1 / 1024) = some 102400000000
    ∧ sample_consts.U2_FLAG_TX_CTRL_UP_ENB ||| 102400000000 = 102400000000
    ∧ (ctor_flow_control sample_consts exact_double_arith sample_lexical_cast_fraction
        [("ups_per_sec", "0.0009765625")] 100000000 1472 live_iface).1.written
        = [(1, 3615752192), (2, 2147483737)]
    ∧ (ctor_flow_control sample_consts exact_double_arith sample_lexical_cast []
        100000000 0 live_iface).2 = .error cpp_fault.conversion_out_of_range
    ∧ (ctor_flow_control sample_consts exact_double_arith sample_lexical_cast []
        100000000 0 live_iface).1.written = [(1, 2152483648)] := by
  have hd1 : exact_double_arith.div 100000000 (1 / 1024) = some 102400000000 := by
    simp only [exact_double_arith]
    norm_num
  have hd2 : (exact_double_arith.div (exact_double_arith.of_size_t sample_consts.sram_bytes) 8).bind
      (fun q => exact_double_arith.div q (exact_double_arith.of_size_t 1472))
      = some (2048 / 23) := by
    simp only [exact_double_arith, sample_consts]
    norm_num
  have hd3 : exact_double_arith.div 100000000 20 = some 5000000 := by
    simp only [exact_double_arith]
    norm_num
  have hd4 : (exact_double_arith.div (exact_double_arith.of_size_t sample_consts.sram_bytes) 8).bind
      (fun q => exact_double_arith.div q (exact_double_arith.of_size_t 0)) = none := by
    simp only [exact_double_arith, sample_consts]
    norm_num
  have f1 : ⌊(102400000000 : ℚ)⌋ = 102400000000 := by norm_num
  have f2 : ⌊(2048 / 23 : ℚ)⌋ = 89 := by norm_num [Int.floor_eq_iff]
  have f3 : ⌊(5000000 : ℚ)⌋ = 5000000 := by norm_num
  have hpos : (1 / 1024 : ℚ) > 0 := by norm_num
  have hpos20 : (20 : ℚ) > 0 := by norm_num
  have hpos8 : (8 : ℚ) > 0 := by norm_num
  have hA := ctor_flow_control_eq sample_consts exact_double_arith sample_lexical_cast_fraction
    [("ups_per_sec", "0.0009765625")] 100000000 1472 live_iface (1 / 1024) 8 rfl rfl
  rw [if_pos hpos, hd1, flow_control_update_ok sample_consts _ 102400000000 live_iface rfl
    (by norm_num) (by norm_num [size_t_mod])] at hA
  simp only [if_pos hpos8, hd2] at hA
  rw [flow_control_update_ok sample_consts _ (2048 / 23) _ rfl (by norm_num)
    (by norm_num [size_t_mod])] at hA
  have hB := ctor_flow_control_eq sample_consts exact_double_arith sample_lexical_cast
    [] 100000000 0 live_iface 20 8 rfl rfl
  rw [if_pos hpos20, hd3, flow_control_update_ok sample_consts _ 5000000 live_iface rfl
    (by norm_num) (by norm_num [size_t_mod])] at hB
  simp only [if_pos hpos8, hd4, flow_control_update_undefined] at hB
  refine ⟨rfl, hd1, by decide, ?_, ?_, ?_⟩
  · rw [hA]
    simp only [f1, f2]
    decide
  · rw [hB]
  · rw [hB]
    simp only [f3]
    decide

/-- C9: the destructor never lets an exception out.  It calls `poke32` with
0 on the cycles-per-update register and then on the packets-per-update
register, whether or not the first call threw; each of the two writes goes
through unless its own control transaction fails, in which case the raw
call does throw and the destructor suppresses it. -/
theorem teardown_flow_control (k : usrp2_consts) (mb : usrp2_mboard_impl) :
    (usrp2_mboard_impl.dtor k mb).2 = .ok ()
    ∧ (usrp2_mboard_impl.dtor k mb).1._iface.attempted
        = mb._iface.attempted
          ++ [(k.U2_REG_TX_CTRL_CYCLES_PER_UP, 0), (k.U2_REG_TX_CTRL_PACKETS_PER_UP, 0)]
    ∧ (usrp2_mboard_impl.dtor k mb).1._iface.written
        = mb._iface.written
          ++ (if mb._iface.fails mb._iface.transactions then []
              else [(k.U2_REG_TX_CTRL_CYCLES_PER_UP, 0)])
          ++ (if mb._iface.fails (mb._iface.transactions + 1) then []
              else [(k.U2_REG_TX_CTRL_PACKETS_PER_UP, 0)])
    ∧ (mboard_poke32 k.U2_REG_TX_CTRL_CYCLES_PER_UP 0 mb).2
        = (if mb._iface.fails mb._iface.transactions then
             .error (uhd_exception.runtime_error "no control response")
           else .ok ()) := by
  cases hf0 : mb._iface.fails mb._iface.transactions <;>
    cases hf1 : mb._iface.fails (mb._iface.transactions + 1) <;>
      simp [usrp2_mboard_impl.dtor, mboard_stmt.seq, UHD_SAFE_CALL, mboard_poke32,
        usrp2_iface.poke32, hf0, hf1]

/-- The key lookup agrees with `has_key`. -/
theorem has_key_iff_lookup (d : device_addr_t) (key : String) :
    d.has_key key = (d.lookup key).isSome := by
  unfold device_addr_t.has_key device_addr_t.lookup
  induction d with
  | nil => rfl
  | cons kv rest ih =>
    simp only [List.any_cons, List.find?_cons]
    cases h : (kv.1 == key) with
    | true => simp
    | false => simpa using ih

/-- C10 (as amended): of the values of `mimo_mode`, `master` and `slave` are
accepted, and select master, respectively slave clocking, with no register
access; every other value, `auto` included, makes the constructor throw the
value error "mimo_mode must be set to master or slave"; when the option is
absent the mode is bit 8 of the status register. -/
theorem mimo_mode_domain (k : usrp2_consts) (device_addr : device_addr_t)
    (iface : usrp2_iface) :
    (device_addr.lookup "mimo_mode" = some "master" →
        ctor_mimo_mode k device_addr iface = (iface, .ok true))
    ∧ (device_addr.lookup "mimo_mode" = some "slave" →
        ctor_mimo_mode k device_addr iface = (iface, .ok false))
    ∧ (∀ v, device_addr.lookup "mimo_mode" = some v → v ≠ "master" → v ≠ "slave" →
        ctor_mimo_mode k device_addr iface
          = (iface, .error (uhd_exception.value_error
              "mimo_mode must be set to master or slave")))
    ∧ (device_addr.lookup "mimo_mode" = none → iface.fails iface.transactions = false →
        (ctor_mimo_mode k device_addr iface).2
          = .ok (iface.readback k.U2_REG_STATUS &&& 256 != 0)) := by
  refine ⟨?_, ?_, ?_, ?_⟩
  · intro h
    have hk : device_addr.has_key "mimo_mode" = true := by rw [has_key_iff_lookup, h]; rfl
    simp [ctor_mimo_mode, hk, h]
  · intro h
    have hk : device_addr.has_key "mimo_mode" = true := by rw [has_key_iff_lookup, h]; rfl
    simp [ctor_mimo_mode, hk, h]
  · intro v h hm hs
    have hk : device_addr.has_key "mimo_mode" = true := by rw [has_key_iff_lookup, h]; rfl
    simp [ctor_mimo_mode, hk, h, hm, hs]
  · intro h hlive
    have hk : device_addr.has_key "mimo_mode" = false := by rw [has_key_iff_lookup, h]; rfl
    simp [ctor_mimo_mode, hk, usrp2_iface.peek32, hlive]

/-- Witness of C10 (as amended): `master` and `slave` are accepted on a
working interface. -/
theorem mimo_mode_domain_witness :
    device_addr_t.lookup [("mimo_mode", "master")] "mimo_mode" = some "master"
    ∧ ctor_mimo_mode sample_consts [("mimo_mode", "master")] live_iface = (live_iface, .ok true)
    ∧ device_addr_t.lookup [("addr", "192.168.10.2"), ("mimo_mode", "slave")] "mimo_mode"
        = some "slave"
    ∧ ctor_mimo_mode sample_consts [("addr", "192.168.10.2"), ("mimo_mode", "slave")] live_iface
        = (live_iface, .ok false) :=
  ⟨by decide,
   (mimo_mode_domain sample_consts [("mimo_mode", "master")] live_iface).1 (by decide),
   by decide,
   (mimo_mode_domain sample_consts [("addr", "192.168.10.2"), ("mimo_mode", "slave")]
      live_iface).2.1 (by decide)⟩

/-- C10 (as stated) fails for `auto`: constructing with `mimo_mode=auto`
throws the value error instead of accepting the value. -/
theorem mimo_mode_auto_rejected :
    device_addr_t.lookup [("mimo_mode", "auto")] "mimo_mode" = some "auto"
    ∧ ctor_mimo_mode sample_consts [("mimo_mode", "auto")] live_iface
      = (live_iface, .error (uhd_exception.value_error
          "mimo_mode must be set to master or slave")) :=
  ⟨by decide, rfl⟩

/-! ## What reaches the alignment buffer -/

/-- An iteration changes the alignment buffer by the push the frame gives
rise to, when it gives rise to one. -/
theorem recv_pirate_iteration_booty (env : pirate_env) (index : Nat)
    (b : Option managed_recv_buffer) (s : pirate_state) :
    (recv_pirate_iteration env index b s).io.recv_pirate_booty
      = booty_apply s.io.recv_pirate_booty (booty_push_of env index b) := by
  cases b with
  | none => rfl
  | some buff =>
    cases hdec : env.if_hdr_unpack_be buff (buff.size / 4) with
    | error what =>
      simp only [recv_pirate_iteration, recv_pirate_try, booty_push_of, booty_apply, hdec]
    | ok info =>
      by_cases hasync : info.sid = 1 ∧ info.packet_type ≠ packet_type_t.PACKET_TYPE_DATA
      · have h := recv_pirate_try_async env index buff s info hdec hasync.1 hasync.2
        simp only [recv_pirate_iteration, booty_push_of, booty_apply, hdec, h, if_pos hasync]
      · rw [recv_pirate_iteration_data env index buff s info hdec hasync]
        simp only [booty_push_of, hdec, if_neg hasync]
        by_cases hts : info.has_tsi ∧ info.has_tsf
        · simp only [hts, and_self, if_true, booty_apply]
        · simp only [hts, if_false, booty_apply]

/-- Over a run of transport results the loop applies to the alignment buffer
the pushes of the frames, one per frame at most, in arrival order. -/
theorem recv_pirate_while_booty (env : pirate_env) (index : Nat)
    (frames : List (Option managed_recv_buffer)) (s : pirate_state) :
    (recv_pirate_while env index (frames.map loop_event.recv) s).io.recv_pirate_booty
      = (frames.map (booty_push_of env index)).foldl booty_apply s.io.recv_pirate_booty := by
  induction frames generalizing s with
  | nil => rfl
  | cons b bs ih =>
    simp only [List.map_cons, recv_pirate_while, List.foldl_cons]
    rw [ih, recv_pirate_iteration_booty]

/-- C16: one iteration pushes into the alignment buffer at most once, and
what it pushes is fixed by `booty_push_of`: a frame is pushed if and only if
it is not null, decodes, is not a TX async report and has both `has_tsi` and
`has_tsf` set, and then it is pushed as itself with the time spec
`(tsi, tsf)` and the index of the worker.  A null buffer, a frame that fails
to decode, a TX async report and a data frame lacking a timestamp leave the
alignment buffer as it was.  Over a whole run the alignment buffer receives
exactly these pushes, one per frame, in arrival order. -/
theorem only_timestamped_data_is_pushed (env : pirate_env) (index : Nat)
    (b : Option managed_recv_buffer) (s : pirate_state)
    (frames : List (Option managed_recv_buffer)) (io : io_impl) (cerr : List cerr_event) :
    (recv_pirate_iteration env index b s).io.recv_pirate_booty
        = booty_apply s.io.recv_pirate_booty (booty_push_of env index b)
    ∧ (∀ x, booty_push_of env index b = some x ↔
        ∃ buff info, b = some buff
          ∧ env.if_hdr_unpack_be buff (buff.size / 4) = .ok info
          ∧ ¬ (info.sid = 1 ∧ info.packet_type ≠ packet_type_t.PACKET_TYPE_DATA)
          ∧ info.has_tsi = true ∧ info.has_tsf = true
          ∧ x = (buff, { full_secs := (info.tsi : Int), tick_count := info.tsf,
                         tick_rate := env.master_clock_freq }, index))
    ∧ (booty_push_of env index b = none →
        (recv_pirate_iteration env index b s).io.recv_pirate_booty = s.io.recv_pirate_booty)
    ∧ (recv_pirate_loop env index (frames.map loop_event.recv) io cerr).io.recv_pirate_booty
        = (frames.map (booty_push_of env index)).foldl booty_apply io.recv_pirate_booty := by
  refine ⟨recv_pirate_iteration_booty env index b s, ?_, ?_, ?_⟩
  · intro x
    cases b with
    | none => simp [booty_push_of]
    | some buff =>
      cases hdec : env.if_hdr_unpack_be buff (buff.size / 4) with
      | error what => simp [booty_push_of, hdec]
      | ok info =>
        by_cases hasync : info.sid = 1 ∧ info.packet_type ≠ packet_type_t.PACKET_TYPE_DATA
        · simp only [booty_push_of, hdec, if_pos hasync]
          constructor
          · intro h; cases h
          · rintro ⟨buff2, info2, hb, hd, hna, -⟩
            cases hb
            rw [hdec] at hd
            cases hd
            exact absurd hasync hna
        · by_cases hts : info.has_tsi ∧ info.has_tsf
          · simp only [booty_push_of, hdec, if_neg hasync, if_pos hts]
            constructor
            · intro h
              cases h
              exact ⟨buff, info, rfl, hdec, hasync, hts.1, hts.2, rfl⟩
            · rintro ⟨buff2, info2, hb, hd, -, -, -, hx⟩
              cases hb
              rw [hdec] at hd
              cases hd
              rw [hx]
          · simp only [booty_push_of, hdec, if_neg hasync, if_neg hts]
            constructor
            · intro h; cases h
            · rintro ⟨buff2, info2, hb, hd, -, h1, h2, -⟩
              cases hb
              rw [hdec] at hd
              cases hd
              exact absurd ⟨h1, h2⟩ hts
  · intro hnone
    rw [recv_pirate_iteration_booty, hnone]
    rfl
  · exact recv_pirate_while_booty env index frames _

/-- Witness of C16 on the toy decoder: of a null buffer, a frame that does
not decode, a TX async report, a data frame without `tsf` and a well-formed
data frame, met in this order by worker 0, only the last one is in the
alignment buffer, once, with the time spec (6, 0) and stream index 0. -/
theorem only_timestamped_data_is_pushed_witness :
    booty_push_of sample_env 0 none = none
    ∧ booty_push_of sample_env 0 (some (sample_bad_frame 1)) = none
    ∧ booty_push_of sample_env 0 (some (sample_async_frame 2 2)) = none
    ∧ booty_push_of sample_env 0 (some (sample_untimed_frame 3 0)) = none
    ∧ (recv_pirate_loop sample_env 0
          ([none, some (sample_bad_frame 1), some (sample_async_frame 2 2),
            some (sample_untimed_frame 3 0), some (sample_data_frame 4 1 6)].map
            loop_event.recv)
          (io_impl.ctor 32 1) []).io.recv_pirate_booty.streams
        = [[(sample_data_frame 4 1 6,
             { full_secs := 6, tick_count := 0, tick_rate := 100000000 }, 0)]] := by
  have h := only_timestamped_data_is_pushed sample_env 0 none sample_state
    [none, some (sample_bad_frame 1), some (sample_async_frame 2 2),
     some (sample_untimed_frame 3 0), some (sample_data_frame 4 1 6)] (io_impl.ctor 32 1) []
  refine ⟨rfl, rfl, rfl, rfl, ?_⟩
  rw [h.2.2.2]
  rfl

/-! ## Sequence numbers that wrap around -/

/-- A run of data packets whose counts continue the expected sequence number
modulo 16 writes no `O` and advances the expected sequence number by the
number of packets, modulo 16. -/
theorem recv_pirate_while_in_sequence (env : pirate_env) (index : Nat)
    (frames : List managed_recv_buffer) (k : Nat) (s : pirate_state)
    (hs : s.next_packet_seq = k % 16)
    (h : ∀ i b, frames[i]? = some b →
      ∃ info, env.if_hdr_unpack_be b (b.size / 4) = .ok info
        ∧ ¬ (info.sid = 1 ∧ info.packet_type ≠ packet_type_t.PACKET_TYPE_DATA)
        ∧ info.packet_count = (k + i) % 16) :
    (∃ out, (recv_pirate_while env index (frames.map (fun b => loop_event.recv (some b))) s).cerr
          = s.cerr ++ out ∧ count_O out = 0)
    ∧ (recv_pirate_while env index (frames.map (fun b => loop_event.recv (some b))) s).next_packet_seq
        = (k + frames.length) % 16 := by
  induction frames generalizing k s with
  | nil => exact ⟨⟨[], by simp [recv_pirate_while], rfl⟩, by simpa [recv_pirate_while] using hs⟩
  | cons b bs ih =>
    obtain ⟨info, hdec, hdata, hcnt⟩ := h 0 b (by simp)
    have hcnt2 : info.packet_count = s.next_packet_seq := by rw [hcnt, hs]; rfl
    have hiter := recv_pirate_iteration_data env index b s info hdec hdata
    have hseq : (recv_pirate_iteration env index (some b) s).next_packet_seq = (k + 1) % 16 := by
      rw [hiter, hcnt]
      simp only [Nat.add_zero]
      omega
    have hcerr : (recv_pirate_iteration env index (some b) s).cerr
        = s.cerr ++ (if info.has_tsi ∧ info.has_tsf then []
                     else [cerr_event.error env.assert_what]) := by
      rw [hiter]
      simp [hcnt2]
    obtain ⟨⟨out, hout, hcount⟩, hfin⟩ := ih (k + 1)
      (recv_pirate_iteration env index (some b) s) hseq
      (fun i b2 hb2 => by
        obtain ⟨info2, h1, h2, h3⟩ := h (i + 1) b2 (by simpa using hb2)
        exact ⟨info2, h1, h2, by rw [h3]; congr 1; omega⟩)
    simp only [List.map_cons, recv_pirate_while, List.length_cons]
    refine ⟨⟨(if info.has_tsi ∧ info.has_tsf then []
              else [cerr_event.error env.assert_what]) ++ out, ?_, ?_⟩, ?_⟩
    · rw [hout, hcerr, List.append_assoc]
    · by_cases hts : info.has_tsi ∧ info.has_tsf
      · simpa [hts] using hcount
      · simp only [hts, if_false, count_O] at hcount ⊢
        simpa [List.count_cons] using hcount
    · rw [hfin]
      congr 1
      omega

/-- C17: a stream of data packets whose counts are 0, 1, 2, ... taken modulo
16 (so 15 is followed by 0), met by the loop from its entry, makes the
scavenger write no `O` at all, and the expected sequence number ends at the
number of packets modulo 16; after any data packet, in any state, the
expected sequence number is below 16. -/
theorem wraparound_tolerance (env : pirate_env) (index : Nat)
    (frames : List managed_recv_buffer) (io : io_impl) (cerr : List cerr_event)
    (h : ∀ i b, frames[i]? = some b →
      ∃ info, env.if_hdr_unpack_be b (b.size / 4) = .ok info
        ∧ ¬ (info.sid = 1 ∧ info.packet_type ≠ packet_type_t.PACKET_TYPE_DATA)
        ∧ info.packet_count = i % 16) :
    count_O (emitted cerr
        (recv_pirate_loop env index (frames.map (fun b => loop_event.recv (some b))) io cerr).cerr)
      = 0
    ∧ (recv_pirate_loop env index (frames.map (fun b => loop_event.recv (some b)))
        io cerr).next_packet_seq = frames.length % 16
    ∧ (∀ (buff : managed_recv_buffer) (s : pirate_state) (info : if_packet_info_t),
        env.if_hdr_unpack_be buff (buff.size / 4) = .ok info →
        ¬ (info.sid = 1 ∧ info.packet_type ≠ packet_type_t.PACKET_TYPE_DATA) →
        (recv_pirate_iteration env index (some buff) s).next_packet_seq < 16) := by
  obtain ⟨⟨out, hout, hcount⟩, hfin⟩ := recv_pirate_while_in_sequence env index frames 0
    { next_packet_seq := 0, io := { io with recv_pirate_crew_raiding := true }, cerr := cerr }
    rfl (fun i b hb => by simpa using h i b hb)
  refine ⟨?_, ?_, ?_⟩
  · unfold recv_pirate_loop
    rw [hout]
    simpa [emitted] using hcount
  · unfold recv_pirate_loop
    rw [hfin]
    simp
  · intro buff s info hdec hdata
    rw [recv_pirate_iteration_data env index buff s info hdec hdata]
    exact Nat.mod_lt _ (by norm_num)

/-- The toy decoder on a sample data frame. -/
theorem sample_unpack_data_frame (id cnt tsi : Nat) :
    sample_env.if_hdr_unpack_be (sample_data_frame id cnt tsi)
        ((sample_data_frame id cnt tsi).size / 4)
      = .ok (sample_data_info cnt tsi) := by
  simp [sample_env, sample_unpack, sample_data_frame, sample_data_info,
    managed_recv_buffer.size]

/-- Witness of C17 on the toy decoder: seventeen data frames with the counts
0, 1, ..., 15, 0 leave the expected sequence number at 1. -/
theorem wraparound_tolerance_witness :
    (∀ i b, ((List.range 17).map (fun i => sample_data_frame i (i % 16) i))[i]? = some b →
      ∃ info, sample_env.if_hdr_unpack_be b (b.size / 4) = .ok info
        ∧ ¬ (info.sid = 1 ∧ info.packet_type ≠ packet_type_t.PACKET_TYPE_DATA)
        ∧ info.packet_count = i % 16)
    ∧ (recv_pirate_loop sample_env 0
        (((List.range 17).map (fun i => sample_data_frame i (i % 16) i)).map
          (fun b => loop_event.recv (some b)))
        (io_impl.ctor 32 1) []).next_packet_seq = 1 := by
  have hyp : ∀ i b,
      ((List.range 17).map (fun i => sample_data_frame i (i % 16) i))[i]? = some b →
      ∃ info, sample_env.if_hdr_unpack_be b (b.size / 4) = .ok info
        ∧ ¬ (info.sid = 1 ∧ info.packet_type ≠ packet_type_t.PACKET_TYPE_DATA)
        ∧ info.packet_count = i % 16 := by
    intro i b hb
    rw [List.getElem?_map] at hb
    by_cases hi : i < 17
    · rw [List.getElem?_range hi] at hb
      simp only [Option.map_some', Option.some.injEq] at hb
      subst hb
      refine ⟨sample_data_info (i % 16) i, sample_unpack_data_frame i (i % 16) i, ?_, rfl⟩
      rintro ⟨hsid, -⟩
      cases hsid
    · rw [List.getElem?_eq_none (by simpa using hi)] at hb
      cases hb
  exact ⟨hyp, (wraparound_tolerance sample_env 0 _ (io_impl.ctor 32 1) [] hyp).2.1⟩

/-! ## Property setters -/

/-- C11: on a slave motherboard `set_time_spec` returns at once, for any time
spec and either value of `now`: the state, and with it the log of register
writes, is unchanged, and so it is for a set of TIME_NOW or TIME_PPS.  On a
master whose control socket works it writes, in this order, the tick
register, the immediate-flag register (latch now for `now`, latch at the
next PPS otherwise) and the seconds register, and nothing else. -/
theorem slave_rejects_time_sets (tk : usrp2_time_consts) (e : mboard_env)
    (time_spec : time_spec_t) (now : Bool) (mb : usrp2_mboard_impl) :
    (mb._mimo_clocking_mode_is_master = false →
        set_time_spec tk e time_spec now mb = (mb, .ok ())
        ∧ usrp2_mboard_impl.set tk e (.MBOARD_PROP_TIME_NOW time_spec) mb = (mb, .ok ())
        ∧ usrp2_mboard_impl.set tk e (.MBOARD_PROP_TIME_PPS time_spec) mb = (mb, .ok ()))
    ∧ (mb._mimo_clocking_mode_is_master = true → (∀ n, mb._iface.fails n = false) →
        (set_time_spec tk e time_spec now mb).2 = .ok ()
        ∧ (set_time_spec tk e time_spec now mb).1._iface.attempted
            = mb._iface.attempted
              ++ [(tk.U2_REG_TIME64_TICKS, e.get_tick_count time_spec e.master_clock_freq),
                  (tk.U2_REG_TIME64_IMM,
                    if now then tk.U2_FLAG_TIME64_LATCH_NOW
                    else tk.U2_FLAG_TIME64_LATCH_NEXT_PPS),
                  (tk.U2_REG_TIME64_SECS, to_uint32 time_spec.full_secs)]
        ∧ (set_time_spec tk e time_spec now mb).1._iface.written
            = mb._iface.written
              ++ [(tk.U2_REG_TIME64_TICKS, e.get_tick_count time_spec e.master_clock_freq),
                  (tk.U2_REG_TIME64_IMM,
                    if now then tk.U2_FLAG_TIME64_LATCH_NOW
                    else tk.U2_FLAG_TIME64_LATCH_NEXT_PPS),
                  (tk.U2_REG_TIME64_SECS, to_uint32 time_spec.full_secs)]
        ∧ (usrp2_mboard_impl.set tk e (.MBOARD_PROP_TIME_NOW time_spec) mb).1
            = (set_time_spec tk e time_spec true mb).1
        ∧ (usrp2_mboard_impl.set tk e (.MBOARD_PROP_TIME_PPS time_spec) mb).1
            = (set_time_spec tk e time_spec false mb).1) := by
  constructor
  · intro hslave
    have h : ∀ n, set_time_spec tk e time_spec n mb = (mb, .ok ()) := by
      intro n
      simp [set_time_spec, hslave]
    refine ⟨h now, ?_, ?_⟩
    · simp only [usrp2_mboard_impl.set, lift_stmt, h]
    · simp only [usrp2_mboard_impl.set, lift_stmt, h]
  · intro hmaster hio
    refine ⟨?_, ?_, ?_, ?_, ?_⟩
    · simp [set_time_spec, hmaster, mboard_stmt.seq, mboard_poke32, usrp2_iface.poke32, hio]
    · simp [set_time_spec, hmaster, mboard_stmt.seq, mboard_poke32, usrp2_iface.poke32, hio]
    · simp [set_time_spec, hmaster, mboard_stmt.seq, mboard_poke32, usrp2_iface.poke32, hio]
    · simp only [usrp2_mboard_impl.set, lift_stmt]
      split <;> simp_all
    · simp only [usrp2_mboard_impl.set, lift_stmt]
      split <;> simp_all

/-- Witness of C11: a slave ignores a set of the time to 5 s; a master on a
working socket writes three registers. -/
theorem slave_rejects_time_sets_witness :
    (sample_slave live_iface)._mimo_clocking_mode_is_master = false
    ∧ usrp2_mboard_impl.set sample_time_consts sample_mboard_env
        (.MBOARD_PROP_TIME_NOW { full_secs := 5, tick_count := 7, tick_rate := 100000000 })
        (sample_slave live_iface) = (sample_slave live_iface, .ok ())
    ∧ (sample_mboard live_iface)._mimo_clocking_mode_is_master = true
    ∧ (∀ n, (sample_mboard live_iface)._iface.fails n = false)
    ∧ (set_time_spec sample_time_consts sample_mboard_env
        { full_secs := 5, tick_count := 7, tick_rate := 100000000 } false
        (sample_mboard live_iface)).1._iface.written = [(10, 7), (11, 0), (12, 5)] := by
  have hs := (slave_rejects_time_sets sample_time_consts sample_mboard_env
    { full_secs := 5, tick_count := 7, tick_rate := 100000000 } true
    (sample_slave live_iface)).1 rfl
  have hm := (slave_rejects_time_sets sample_time_consts sample_mboard_env
    { full_secs := 5, tick_count := 7, tick_rate := 100000000 } false
    (sample_mboard live_iface)).2 rfl (fun _ => rfl)
  refine ⟨rfl, hs.2.1, rfl, fun _ => rfl, ?_⟩
  rw [hm.2.2.1]
  rfl

/-- C18, the code at three inputs: the number of rounds of the TX mux loop
follows the RX specification in place.  With a two-entry RX specification,
setting a one-entry TX specification writes the TX mux register once and
then reads `_tx_subdev_spec[1]`, past the end of the vector; with a
one-entry RX specification the same set ends normally; with an empty RX
specification it writes nothing. -/
theorem tx_subdev_spec_loop_uses_rx_size :
    (usrp2_mboard_impl.set sample_time_consts sample_mboard_env
        (.MBOARD_PROP_TX_SUBDEV_SPEC [{ db_name := "A", sd_name := "0" }])
        (sample_dual_rx live_iface)).2 = .error (cpp_fault.read_past_end 1)
    ∧ (usrp2_mboard_impl.set sample_time_consts sample_mboard_env
        (.MBOARD_PROP_TX_SUBDEV_SPEC [{ db_name := "A", sd_name := "0" }])
        (sample_dual_rx live_iface)).1._iface.written = [(30, 1)]
    ∧ (usrp2_mboard_impl.set sample_time_consts sample_mboard_env
        (.MBOARD_PROP_TX_SUBDEV_SPEC [{ db_name := "A", sd_name := "0" }])
        { sample_dual_rx live_iface with
          _rx_subdev_spec := [{ db_name := "A", sd_name := "A" }] }).2 = .ok ()
    ∧ (usrp2_mboard_impl.set sample_time_consts sample_mboard_env
        (.MBOARD_PROP_TX_SUBDEV_SPEC [{ db_name := "A", sd_name := "0" }])
        { sample_dual_rx live_iface with _rx_subdev_spec := [] }).1._iface.written = [] := by
  refine ⟨rfl, rfl, rfl, rfl⟩

/-! ## Bring-up -/

/-- The bytes of `be32` are four bytes that spell the word, most significant
first. -/
theorem be32_spec (x : Nat) :
    (be32 x).length = 4 ∧ (∀ b ∈ be32 x, b < 256) ∧ be32_value (be32 x) = x % 4294967296 := by
  refine ⟨rfl, ?_, ?_⟩
  · intro b hb
    simp only [be32, List.mem_cons, List.mem_singleton, List.not_mem_nil, or_false] at hb
    rcases hb with h | h | h | h <;> rw [h] <;> exact Nat.mod_lt _ (by norm_num)
  · simp only [be32, be32_value, List.foldl_cons, List.foldl_nil]
    omega

/-- What `send_data` sends is the data. -/
theorem send_data_sent (x : zero_copy_if) (data : List Nat) :
    (x.send_data data).sent = x.sent ++ [data] := by
  simp [zero_copy_if.send_data, memcpy]

/-- C12 (as amended): the probe of `io_init` on a data transport is a single
datagram of exactly 4 bytes, the big-endian encoding of the invalid VRT
header sentinel; the probe of `init_xport` is a single datagram of exactly 8
bytes, a zero word followed by the big-endian encoding of the sentinel. -/
theorem bringup_probes (USRP2_INVALID_VRT_HEADER : Nat) (xport : zero_copy_if) :
    (io_init_transport USRP2_INVALID_VRT_HEADER xport).sent
        = xport.sent ++ [be32 USRP2_INVALID_VRT_HEADER]
    ∧ (be32 USRP2_INVALID_VRT_HEADER).length = 4
    ∧ be32_value (be32 USRP2_INVALID_VRT_HEADER) = USRP2_INVALID_VRT_HEADER % 4294967296
    ∧ (init_xport USRP2_INVALID_VRT_HEADER xport).sent
        = xport.sent ++ [[0, 0, 0, 0] ++ be32 USRP2_INVALID_VRT_HEADER]
    ∧ ([0, 0, 0, 0] ++ be32 USRP2_INVALID_VRT_HEADER).length = 8 := by
  refine ⟨?_, rfl, (be32_spec _).2.2, ?_, rfl⟩
  · simp only [io_init_transport, send_data_sent]
  · simp only [init_xport, send_data_sent]
    rfl

/-- C12 (as stated) fails for `init_xport`: with the sentinel 0 the datagram
it sends on a fresh transport has 8 bytes, not 4. -/
theorem init_xport_sends_eight_bytes :
    (init_xport 0 (sample_xport [] 32)).sent = [[0, 0, 0, 0, 0, 0, 0, 0]]
    ∧ ((init_xport 0 (sample_xport [] 32)).sent.map List.length) = [8]
    ∧ (io_init_transport 0 (sample_xport [] 32)).sent = [[0, 0, 0, 0]] := by
  refine ⟨rfl, rfl, rfl⟩

/-- A push on a stream of positive depth keeps the stream within the depth. -/
theorem fifo_push_length_le {β : Type} (capacity : Nat) (x : β) (l : List β)
    (hcap : 0 < capacity) (hl : l.length ≤ capacity) :
    (fifo_push capacity x l).length ≤ capacity := by
  unfold fifo_push
  split
  · rename_i h
    simp only [List.length_append, List.length_tail, List.length_singleton]
    omega
  · rename_i h
    simp only [List.length_append, List.length_singleton]
    omega

theorem modify_at_bound {β : Type} (f : List β → List β) (capacity : Nat)
    (hf : ∀ l, l.length ≤ capacity → (f l).length ≤ capacity) (i : Nat)
    (streams : List (List β)) (h : ∀ l ∈ streams, l.length ≤ capacity) :
    ∀ l ∈ modify_at f i streams, l.length ≤ capacity := by
  induction streams generalizing i with
  | nil => intro l hl; simp [modify_at] at hl
  | cons s ss ih =>
    cases i with
    | zero =>
      intro l hl
      simp only [modify_at, List.mem_cons] at hl
      rcases hl with rfl | hl
      · exact hf s (h s (List.mem_cons_self _ _))
      · exact h l (List.mem_cons_of_mem _ hl)
    | succ j =>
      intro l hl
      simp only [modify_at, List.mem_cons] at hl
      rcases hl with rfl | hl
      · exact h l (List.mem_cons_self _ _)
      · exact ih j (fun l2 hl2 => h l2 (List.mem_cons_of_mem _ hl2)) l hl

/-- However many frames are pushed, no stream of an alignment buffer of
positive depth holds more than `capacity` of them. -/
theorem push_all_bound {α τ : Type} (ps : List (α × τ × Nat)) (ab : alignment_buffer α τ)
    (hcap : 0 < ab.capacity) (h : ∀ l ∈ ab.streams, l.length ≤ ab.capacity) :
    (ab.push_all ps).capacity = ab.capacity
    ∧ ∀ l ∈ (ab.push_all ps).streams, l.length ≤ ab.capacity := by
  induction ps generalizing ab with
  | nil => exact ⟨rfl, h⟩
  | cons p ps ih =>
    have hstep : ∀ l ∈ (ab.push_with_pop_on_full p.1 p.2.1 p.2.2).streams,
        l.length ≤ ab.capacity :=
      modify_at_bound _ ab.capacity
        (fun l hl => fifo_push_length_le ab.capacity _ l hcap hl) p.2.2 ab.streams h
    have := ih (ab.push_with_pop_on_full p.1 p.2.1 p.2.2) hcap hstep
    simpa [alignment_buffer.push_all, alignment_buffer.push_with_pop_on_full] using this

/-- C14 (as amended): when the receive pool of the first data transport has
at least 3 frames (`num_frames` being a `size_t` value) and there is a
motherboard for every data transport, `io_init` makes the alignment buffer
with as many streams as there are data transports and with depth `D` where
`D + 3 = num_frames`; when `D` is positive no stream ever holds more than
`D` frames, so 3 frames of the pool stay out of the buffer. -/
theorem alignment_buffer_depth (USRP2_INVALID_VRT_HEADER : Nat)
    (transports : List zero_copy_if) (front : zero_copy_if) (rest : List zero_copy_if)
    (num_mboards : Nat)
    (hfront : transports = front :: rest)
    (h3 : 3 ≤ front.num_recv_frames) (hlt : front.num_recv_frames < size_t_mod)
    (hmb : transports.length ≤ num_mboards) :
    ∃ r, io_init USRP2_INVALID_VRT_HEADER transports num_mboards = .ok r
      ∧ r._io_impl.recv_pirate_booty.width = transports.length
      ∧ r._io_impl.recv_pirate_booty.streams.length = transports.length
      ∧ r._io_impl.recv_pirate_booty.capacity + 3 = front.num_recv_frames
      ∧ (0 < r._io_impl.recv_pirate_booty.capacity →
          ∀ ps, ∀ l ∈ (r._io_impl.recv_pirate_booty.push_all ps).streams,
            l.length + 3 ≤ front.num_recv_frames) := by
  subst hfront
  have hcapeq : size_t_sub front.num_recv_frames 3 = front.num_recv_frames - 3 :=
    size_t_sub_of_le _ _ h3 hlt
  have hok : io_init USRP2_INVALID_VRT_HEADER (front :: rest) num_mboards
      = .ok { _data_transports := (front :: rest).map (io_init_transport USRP2_INVALID_VRT_HEADER)
              _io_impl := io_impl.ctor front.num_recv_frames (front :: rest).length
              recv_pirate_crew := List.range (front :: rest).length } := by
    simp only [io_init, List.map_cons, List.head?_cons]
    rw [if_pos (by simpa using hmb)]
    simp [io_init_transport, zero_copy_if.send_data]
  refine ⟨_, hok, ?_, ?_, ?_, ?_⟩
  · simp [io_impl.ctor, alignment_buffer.make]
  · simp [io_impl.ctor, alignment_buffer.make]
  · simp only [io_impl.ctor, alignment_buffer.make]
    rw [hcapeq]
    omega
  · intro hcap ps l hl
    have hb := (push_all_bound ps _ hcap (by
      intro l2 hl2
      simp only [io_impl.ctor, alignment_buffer.make] at hl2
      rw [List.eq_of_mem_replicate hl2]
      exact Nat.zero_le _)).2 l hl
    simp only [io_impl.ctor, alignment_buffer.make] at hb
    rw [hcapeq] at hb
    omega

/-- Witness of C14 (as amended): one data transport with a pool of 32 frames
gives an alignment buffer of one stream and depth 29. -/
theorem alignment_buffer_depth_witness :
    3 ≤ (sample_xport [] 32).num_recv_frames
    ∧ ∃ r, io_init 0 [sample_xport [] 32] 1 = .ok r
        ∧ r._io_impl.recv_pirate_booty.width = 1
        ∧ r._io_impl.recv_pirate_booty.capacity + 3 = 32 := by
  obtain ⟨r, h1, h2, _, h4, _⟩ := alignment_buffer_depth 0 [sample_xport [] 32]
    (sample_xport [] 32) [] 1 rfl (by decide) (by decide) (by decide)
  exact ⟨by decide, r, h1, h2, h4⟩

/-- C14 (as stated) fails for a pool of fewer than 3 frames: for
`num_frames = 2` the `size_t` subtraction wraps, the depth is
18446744073709551615, `D + 3` is not 2, and both frames of the pool can sit
in the buffer at once. -/
theorem alignment_buffer_depth_small_pool :
    (io_impl.ctor 2 1).recv_pirate_booty.capacity = 18446744073709551615
    ∧ (io_impl.ctor 2 1).recv_pirate_booty.capacity + 3 ≠ 2
    ∧ (((io_impl.ctor 2 1).recv_pirate_booty.push_all
          [(sample_data_frame 1 0 5, { full_secs := 5, tick_count := 0, tick_rate := 1 }, 0),
           (sample_data_frame 2 1 6, { full_secs := 6, tick_count := 0, tick_rate := 1 }, 0)]
        ).streams.map List.length) = [2] := by
  refine ⟨by decide, by decide, by decide⟩

/-- With one channel per motherboard, every valid channel is routed to the
first motherboard. -/
theorem handle_overflow_below_size (mboards : List usrp2_mboard_impl) (chan : Nat)
    (cerr : List cerr_event) (h : chan < mboards.length) :
    (handle_overflow mboards chan cerr).invoked = .ok 0 := by
  have hpos : mboards.length ≠ 0 := by omega
  have hdiv : chan / mboards.length = 0 := Nat.div_eq_of_lt h
  simp only [handle_overflow, if_neg hpos, hdiv]
  rw [if_pos (by omega)]

/-- C13, the code at two inputs.  With two motherboards of one channel each,
an overflow on channel 1 invokes `handle_overflow` on motherboard 0, where
`chan / channels_per_mboard` is 1; with one motherboard of two channels, an
overflow on channel 1 throws the out-of-range error, where
`chan / channels_per_mboard` is 0. -/
theorem overflow_hook_divides_by_board_count :
    (handle_overflow [sample_mboard live_iface, sample_mboard live_iface] 1 []).invoked = .ok 0
    ∧ spec_overflow_mboard 1 1 = 1
    ∧ (handle_overflow [sample_mboard live_iface] 1 []).invoked
        = .error (cpp_fault.thrown (uhd_exception.out_of_range "vector::_M_range_check"))
    ∧ spec_overflow_mboard 2 1 = 0 := by
  refine ⟨rfl, rfl, rfl, rfl⟩

/-- The lookup of the validator finds a match exactly for the direction "rx"
or "tx" together with one of the two RX ids of the table. -/
theorem found_match_iff (none_id : Nat) (xx : String) (db_id : Nat) :
    found_match_loop xx db_id (validate_ids none_id) = true
      ↔ (xx = "rx" ∨ xx = "tx") ∧ (db_id = 0x54 ∨ db_id = 0x46) := by
  simp only [found_match_loop, validate_ids]
  by_cases hrx : xx = "rx" <;> by_cases htx : xx = "tx" <;>
    by_cases h1 : (0x54 : Nat) = db_id <;> by_cases h2 : (0x46 : Nat) = db_id <;>
      simp [hrx, htx, h1, h2, eq_comm] <;> omega

/-- C19, the code at four inputs.  For "tx" and the SBX TX id 0x55 the
function returns without reading the EEPROM, although 0x55 is the second id
of a pair; for "tx" and the SBX RX id 0x54 it goes on to the check, although
0x54 is the second id of no pair; for "rx" the two agree (0x54 is checked,
0x55 is not). -/
theorem validator_tx_lookup_uses_rx_id :
    validate_dboard_xx zero_md5 0xFFFF blank_dboard_iface 0x55 "tx"
        = { eeprom_reads := [], outcome := validate_outcome.returned_without_check }
    ∧ spec_found_match 0xFFFF "tx" 0x55 = true
    ∧ validate_dboard_xx zero_md5 0xFFFF blank_dboard_iface 0x54 "tx"
        = { eeprom_reads := [(0x54, 0x99, 1), (0x54, 0xBE, 1), (0x54, 0xC7, 1), (0x54, 0xD3, 1),
                             (0x54, 0xA1, 16)],
            outcome := validate_outcome.check_passed }
    ∧ spec_found_match 0xFFFF "tx" 0x54 = false
    ∧ (validate_dboard_xx zero_md5 0xFFFF blank_dboard_iface 0x54 "rx").outcome
        = validate_outcome.check_passed
    ∧ spec_found_match 0xFFFF "rx" 0x54 = true
    ∧ (validate_dboard_xx zero_md5 0xFFFF blank_dboard_iface 0x55 "rx").outcome
        = validate_outcome.returned_without_check
    ∧ spec_found_match 0xFFFF "rx" 0x55 = false := by
  refine ⟨by decide, by decide, by decide, by decide, by decide, by decide, by decide,
    by decide⟩

end UHD
